import Mathlib

/-!
# SecureWeb-Extension: verification of the detection/scoring engine

A shallow embedding of the detection and scoring engine of the
SecureWeb-Extension repository, together with theorems settling the
specification claims.

Modelling conventions:
* JavaScript strings are modelled as lists of Unicode code points
  (`JStr := List Nat`); the helper `str` converts a Lean string literal.
* JavaScript numbers are modelled exactly: integer counters as `Nat`/`Int`,
  fractional arithmetic as `ℚ` where the source only adds/multiplies/divides,
  and as `ℝ` where the source uses `Math.pow`/`Math.sqrt`.
* The platform URL parser (`new URL`) is modelled by `parseURL`, a simplified
  WHATWG-style parser for hierarchical `scheme://host[:port][/path][?query]`
  URLs (ASCII case folding); inputs outside this fragment are parse failures.
* `String.prototype.toLowerCase` is modelled by `jsToLower` (ASCII fragment).
* Methods of stateful classes become pure functions threading the instance
  state; calls to `Date.now()` / `performance.now()` become explicit
  parameters.
-/

/-- JavaScript strings as lists of code points. -/
abbrev JStr := List Nat

/-- Convert a Lean string literal to its code-point list. -/
def str (s : String) : JStr := s.data.map Char.toNat

/-- First code point of a literal (for character constants). -/
def chr (s : String) : Nat := (str s).headD 0

/-- ASCII lower-casing of one code point (model of the case folding done by
`toLowerCase` and by URL host canonicalization on the ASCII fragment). -/
def lowerChar (c : Nat) : Nat := if 65 ≤ c ∧ c ≤ 90 then c + 32 else c

/-- Model of `String.prototype.toLowerCase` (ASCII fragment). -/
def jsToLower (s : JStr) : JStr := s.map lowerChar

/-- Scheme characters accepted by the modelled URL parser (ASCII letters). -/
def isSchemeChar (c : Nat) : Bool := decide ((65 ≤ c ∧ c ≤ 90) ∨ (97 ≤ c ∧ c ≤ 122))

/-- ASCII digit. -/
def isDigitChar (c : Nat) : Bool := decide (48 ≤ c ∧ c ≤ 57)

/-- Characters that may appear in the authority part (everything up to the
first `/` (47) or `?` (63)). -/
def isAuthChar (c : Nat) : Bool := decide (c ≠ 47 ∧ c ≠ 63)

/-- Characters other than `:` (58). -/
def isNotColon (c : Nat) : Bool := decide (c ≠ 58)

/-- Characters other than `?` (63). -/
def isNotQuery (c : Nat) : Bool := decide (c ≠ 63)

/-- Model of `String.prototype.includes`: `jsIncludes hay needle` is true when
`needle` occurs as a contiguous substring of `hay`. -/
def jsIncludes (hay needle : JStr) : Bool :=
  needle.isPrefixOf hay ||
    match hay with
    | [] => false
    | _ :: t => jsIncludes t needle

/-- Model of `Array.prototype.includes` / `String.prototype.endsWith` uses
`List.isSuffixOf` / `List.contains` from the library directly. -/
def jsEndsWith (s suffix : JStr) : Bool := List.isSuffixOf suffix s

/-- Fuel-driven worker for `jsSplitStr`.  The fuel is always called with
`s.length + 1`, which is sufficient because every step consumes at least one
character of the remaining string. -/
def splitGo (sep : JStr) : Nat → JStr → List JStr
  | 0, rest => [rest]
  | fuel + 1, rest =>
    if sep ≠ [] ∧ sep.isPrefixOf rest then
      [] :: splitGo sep fuel (rest.drop sep.length)
    else
      match rest with
      | [] => [[]]
      | c :: t =>
        match splitGo sep fuel t with
        | [] => [[c]]
        | h :: tl => (c :: h) :: tl

/-- Model of `String.prototype.split` with a non-empty string separator. -/
def jsSplitStr (sep s : JStr) : List JStr := splitGo sep (s.length + 1) s

/-- Model of `Array.prototype.join`. -/
def jsJoin (sep : JStr) : List JStr → JStr
  | [] => []
  | [x] => x
  | x :: xs => x ++ sep ++ jsJoin sep xs

/-- Append an element if it is not already present
(model of `if (!xs.includes(x)) xs.push(x)`). -/
def pushIfNew (l : List JStr) (x : JStr) : List JStr :=
  if l.contains x then l else l ++ [x]

/-- JavaScript truthiness of an optional string: present and non-empty. -/
def jsTruthy : Option JStr → Bool
  | none => false
  | some s => s ≠ []

/-- `parseInt(s, 10)` on a string of decimal digits (the only use site feeds
it URL ports, which the parser guarantees to be all digits). -/
def digitsToNat : JStr → Nat → Nat
  | [], acc => acc
  | c :: t, acc => if isDigitChar c then digitsToNat t (acc * 10 + (c - 48)) else acc

/-- A parsed URL, as exposed by the platform `URL` object: canonical
(lower-cased) scheme and host, port string (empty when absent or the scheme
default), pathname (always starting with `/`), query (text after `?`). -/
structure URLObj where
  scheme : JStr
  host : JStr
  port : JStr
  path : JStr
  query : JStr
  deriving DecidableEq, Repr

/-- Model of the platform URL parser (`new URL`) on hierarchical
`scheme://host[:port][/path][?query]` URLs.  Returns `none` (a parse failure,
i.e. a thrown `TypeError`) for anything outside this fragment. -/
def parseChars (l : JStr) : Option URLObj :=
  let scheme0 := l.takeWhile isSchemeChar
  let rest1 := l.dropWhile isSchemeChar
  if scheme0 = [] then none else
  match rest1 with
  | c1 :: c2 :: c3 :: rest2 =>
    if c1 = 58 ∧ c2 = 47 ∧ c3 = 47 then
      let auth := rest2.takeWhile isAuthChar
      let pathRest := rest2.dropWhile isAuthChar
      if auth = [] then none else
      let host0 := auth.takeWhile isNotColon
      let portPart := auth.dropWhile isNotColon
      if host0 = [] then none else
      let port0 := portPart.tail
      if port0.all isDigitChar then
        let scheme := jsToLower scheme0
        let host := jsToLower host0
        let port :=
          if (scheme = str "http" ∧ port0 = str "80") ∨
             (scheme = str "https" ∧ port0 = str "443") then [] else port0
        let path0 := pathRest.takeWhile isNotQuery
        let query := (pathRest.dropWhile isNotQuery).tail
        let path := if path0 = [] then [47] else path0
        some ⟨scheme, host, port, path, query⟩
      else none
    else none
  | _ => none

/-- `new URL(s)` — the model entry point. -/
def parseURL (s : JStr) : Option URLObj := parseChars s

/-- Serialization of a parsed URL (`url.href`) in the modelled fragment. -/
def hrefOf (u : URLObj) : JStr :=
  u.scheme ++ str "://" ++ u.host ++
    (if u.port = [] then [] else 58 :: u.port) ++
    u.path ++ (if u.query = [] then [] else 63 :: u.query)

/-- Model of `s.replace(/\/$/, "")`: drop one trailing `/` if present. -/
def stripTrailingSlash (s : JStr) : JStr :=
  if s.getLast? = some 47 then s.dropLast else s

/-- Keys of `url.searchParams` in order: split the query on `&` (38), drop
empty pairs, keep the text before the first `=` (61). -/
def searchParamKeys (query : JStr) : List JStr :=
  ((jsSplitStr [38] query).filter (fun p => p ≠ [])).map
    (fun p => p.takeWhile (fun c => decide (c ≠ 61)))

/-! ## Module 1.2: URL analyzer — types (`types.ts`) -/

/-- The severity tier used uniformly across the engine. -/
inductive Severity where
  | low | medium | high | critical
  deriving DecidableEq, Repr

/-- `IndicatorType` of `1.2-url-analyzer/types.ts`. -/
inductive IndicatorType where
  | ip_address | suspicious_tld | excessive_subdomains | typosquatting
  | suspicious_path | suspicious_params | homograph_attack | url_shortener
  | suspicious_port | suspicious_keywords | excessive_dashes
  deriving DecidableEq, Repr

/-- `ThreatIndicator` of `1.2-url-analyzer/types.ts`. -/
structure ThreatIndicator where
  type : IndicatorType
  severity : Severity
  description : JStr
  value : JStr
  deriving DecidableEq, Repr

/-- The tri-state verdict of URL analysis. -/
inductive Verdict where
  | safe | suspicious | malicious
  deriving DecidableEq, Repr

/-- Sensitivity levels of `URLAnalyzerConfig`. -/
inductive SensLevel where
  | low | medium | high
  deriving DecidableEq, Repr

/-- `URLAnalysisResult` of `1.2-url-analyzer/types.ts`. -/
structure URLAnalysisResult where
  url : JStr
  verdict : Verdict
  confidence : ℝ
  reason : JStr
  indicators : List ThreatIndicator
  timestamp : Int

/-- `URLAnalyzerConfig` of `1.2-url-analyzer/types.ts`. -/
structure URLAnalyzerConfig where
  cacheEnabled : Bool
  cacheTTL : Int
  blockThreshold : ℝ
  sensitivityLevel : SensLevel

/-- `AnalyzerStats` of `1.2-url-analyzer/types.ts`. -/
structure AnalyzerStats where
  totalAnalyzed : Nat
  safeCount : Nat
  suspiciousCount : Nat
  maliciousCount : Nat
  cacheHits : Nat
  cacheMisses : Nat
  averageAnalysisTime : ℚ

/-! ## Module 1.2: pattern tables (`patterns.ts`) -/

/-- `SUSPICIOUS_TLDS` of `patterns.ts`. -/
def SUSPICIOUS_TLDS : List JStr :=
  [str "tk", str "ml", str "ga", str "cf", str "gq", str "pw", str "buzz",
   str "work", str "click", str "link", str "top", str "xyz", str "club",
   str "loan", str "download", str "racing"]

/-- `PROTECTED_BRANDS` of `patterns.ts`. -/
def PROTECTED_BRANDS : List JStr :=
  [str "google", str "facebook", str "amazon", str "apple", str "microsoft",
   str "netflix", str "instagram", str "twitter", str "youtube", str "linkedin",
   str "paypal", str "ebay", str "adobe", str "dropbox", str "github",
   str "visa", str "mastercard", str "americanexpress", str "discover",
   str "chase", str "wellsfargo", str "bankofamerica", str "citibank",
   str "hbl", str "ubl", str "mcb", str "allied", str "habib", str "meezan",
   str "alfalah", str "askari", str "soneri", str "standard", str "alibaba",
   str "aliexpress", str "daraz", str "walmart"]

/-- `LOOKALIKE_CHARS` of `patterns.ts`: a record from a character to the list
of lookalike *strings* (the entry `"rn"` for `m` is a two-character string,
which — exactly as in the source — can never equal a single character). -/
def LOOKALIKE_CHARS : List (Nat × List JStr) :=
  [(chr "a", [str "@", str "á", str "à", str "â", str "ä", str "ã", str "å", str "α"]),
   (chr "e", [str "3", str "é", str "è", str "ê", str "ë", str "ε"]),
   (chr "i", [str "1", str "l", str "í", str "ì", str "î", str "ï", str "ı"]),
   (chr "o", [str "0", str "ó", str "ò", str "ô", str "ö", str "õ", str "ø"]),
   (chr "u", [str "ú", str "ù", str "û", str "ü", str "µ"]),
   (chr "l", [str "1", str "i", str "í", str "|"]),
   (chr "s", [str "$", str "5", str "š"]),
   (chr "g", [str "9", str "q"]),
   (chr "b", [str "d", str "8"]),
   (chr "c", [str "ç", str "©"]),
   (chr "n", [str "ñ", str "η"]),
   (chr "m", [str "rn"])]

/-- `SUSPICIOUS_PATHS` of `patterns.ts`: each case-insensitive regex
`/\/xxx/i` is a substring test; we keep the regex source text (used in the
indicator description) next to the substring it matches. -/
structure PathPattern where
  source : JStr
  needle : JStr
  deriving DecidableEq, Repr

/-- The `SUSPICIOUS_PATHS` table. -/
def SUSPICIOUS_PATHS : List PathPattern :=
  [⟨str "\\/login", str "/login"⟩, ⟨str "\\/signin", str "/signin"⟩,
   ⟨str "\\/sign-in", str "/sign-in"⟩, ⟨str "\\/account", str "/account"⟩,
   ⟨str "\\/verify", str "/verify"⟩, ⟨str "\\/secure", str "/secure"⟩,
   ⟨str "\\/update", str "/update"⟩, ⟨str "\\/confirm", str "/confirm"⟩,
   ⟨str "\\/validation", str "/validation"⟩, ⟨str "\\/authentication", str "/authentication"⟩,
   ⟨str "\\/password", str "/password"⟩, ⟨str "\\/banking", str "/banking"⟩,
   ⟨str "\\/wallet", str "/wallet"⟩]

/-- `SUSPICIOUS_PARAMS` of `patterns.ts`. -/
def SUSPICIOUS_PARAMS : List JStr :=
  [str "password", str "pass", str "pwd", str "credit", str "creditcard",
   str "cc", str "cvv", str "cvc", str "ssn", str "social", str "account",
   str "acct", str "pin", str "otp", str "token", str "auth", str "session",
   str "sid"]

/-- `URL_SHORTENERS` of `patterns.ts`. -/
def URL_SHORTENERS : List JStr :=
  [str "bit.ly", str "goo.gl", str "tinyurl.com", str "ow.ly", str "t.co",
   str "buff.ly", str "is.gd", str "cli.gs", str "tiny.cc", str "url.ie",
   str "tr.im", str "twurl.nl", str "short.to", str "cutt.ly", str "rb.gy",
   str "shorturl.at"]

/-- `SUSPICIOUS_PORTS` of `patterns.ts`. -/
def SUSPICIOUS_PORTS : List Nat :=
  [8080, 8888, 3000, 5000, 8000, 4444, 31337, 12345, 1337, 666, 6666, 6667]

/-- Keyword alternatives of `PATTERNS.SUSPICIOUS_KEYWORDS`, in the regex's
alternation order. -/
def SUSPICIOUS_KEYWORDS : List JStr :=
  [str "secure", str "account", str "verify", str "login", str "update",
   str "confirm", str "validate", str "banking", str "wallet", str "payment"]

/-- `PATTERNS.IP_ADDRESS = /^(\d{1,3}\.){3}\d{1,3}$/`: four dot-separated
groups of one to three digits. -/
def testIPAddress (hostname : JStr) : Bool :=
  let groups := jsSplitStr [46] hostname
  groups.length = 4 &&
    groups.all (fun g => 1 ≤ g.length && g.length ≤ 3 && g.all isDigitChar)

/-- `PATTERNS.EXCESSIVE_DASHES`, the regex "dash repeated three or more
times": equivalently, three consecutive dashes (45) occur. -/
def testExcessiveDashes (hostname : JStr) : Bool :=
  jsIncludes hostname [45, 45, 45]

/-- Cyrillic letters (U+0410–U+044F), as in `PATTERNS.MIXED_SCRIPTS`. -/
def isCyrillic (c : Nat) : Bool := decide (0x410 ≤ c ∧ c ≤ 0x44f)

/-- ASCII Latin letters, as in `PATTERNS.MIXED_SCRIPTS`. -/
def isLatinLetter (c : Nat) : Bool :=
  decide ((65 ≤ c ∧ c ≤ 90) ∨ (97 ≤ c ∧ c ≤ 122))

/-- `PATTERNS.MIXED_SCRIPTS`: a Cyrillic letter before a Latin one or a Latin
letter before a Cyrillic one — equivalently, both scripts occur. -/
def testMixedScripts (hostname : JStr) : Bool :=
  hostname.any isCyrillic && hostname.any isLatinLetter

/-- Leftmost-first match of `PATTERNS.SUSPICIOUS_KEYWORDS` (an `/i` regex):
scan positions left to right and try the alternatives in order; the returned
text is the slice of the input that matched (`match[0]`). -/
def findKeywordMatch : JStr → Option JStr
  | [] => none
  | c :: t =>
    match SUSPICIOUS_KEYWORDS.find? (fun kw => kw.isPrefixOf (jsToLower (c :: t))) with
    | some kw => some ((c :: t).take kw.length)
    | none => findKeywordMatch t

/-! ## Module 1.2: heuristics (`heuristics.ts`) -/

/-- `levenshteinDistance` of `patterns.ts`: one row of the dynamic-programming
matrix.  `levRowAux c1 s2 prevTail diag left` walks the columns; `diag` is the
entry above-left, `left` the entry just computed, `prevTail` the remainder of
the previous row. -/
def levRowAux (c1 : Nat) : JStr → List Nat → Nat → Nat → List Nat
  | [], _, _, _ => []
  | _ :: _, [], _, _ => []
  | c2 :: s2, up :: prest, diag, left =>
    let cur := if c1 = c2 then diag else Nat.min (diag + 1) (Nat.min (left + 1) (up + 1))
    cur :: levRowAux c1 s2 prest up cur

/-- Row `i` of the Levenshtein matrix from row `i-1`. -/
def levRow (c1 : Nat) (s2 : JStr) (prev : List Nat) (i : Nat) : List Nat :=
  match prev with
  | [] => [i]
  | p0 :: prest => i :: levRowAux c1 s2 prest p0 i

/-- Fold the rows of the matrix over the characters of `str1`. -/
def levRows (s2 : JStr) : JStr → List Nat → Nat → List Nat
  | [], row, _ => row
  | c :: cs, row, i => levRows s2 cs (levRow c s2 row i) (i + 1)

/-- `levenshteinDistance(str1, str2)`: the classic full-matrix dynamic
program; the result is the last entry of the last row (`matrix[len1][len2]`). -/
def levenshteinDistance (str1 str2 : JStr) : Nat :=
  let row0 := List.range (str2.length + 1)
  ((levRows str2 str1 row0 1).getLast?).getD 0

/-- `checkIPAddress` of `heuristics.ts`. -/
def checkIPAddress (hostname : JStr) : List ThreatIndicator :=
  if testIPAddress hostname then
    [⟨.ip_address, .high, str "Uses IP address instead of domain name", hostname⟩]
  else []

/-- `checkSuspiciousTLD` of `heuristics.ts`. -/
def checkSuspiciousTLD (hostname : JStr) : List ThreatIndicator :=
  let parts := jsSplitStr [46] hostname
  let tld := (parts.getLast?).getD []
  if SUSPICIOUS_TLDS.contains tld then
    [⟨.suspicious_tld, .medium, str "Uses suspicious TLD: ." ++ tld, tld⟩]
  else []

/-- `checkExcessiveSubdomains` of `heuristics.ts`. -/
def checkExcessiveSubdomains (hostname : JStr) : List ThreatIndicator :=
  let parts := jsSplitStr [46] hostname
  if parts.length > 5 then
    [⟨.excessive_subdomains, .medium,
      str "Too many subdomains (" ++ str (Nat.repr parts.length) ++ str " levels)",
      hostname⟩]
  else []

/-- The match counter of `hasLookalikeChars`: positions `i < min(len d, len b)`
where the characters agree or the domain character is a lookalike of the brand
character. -/
def lookalikeMatchCount (domain brand : JStr) : Nat :=
  ((domain.zip brand).filter (fun p =>
    p.1 = p.2 ||
      (((LOOKALIKE_CHARS.lookup p.2).getD []).contains ([p.1] : JStr)))).length

/-- `hasLookalikeChars` of `heuristics.ts`. -/
def hasLookalikeChars (domain brand : JStr) : Bool :=
  if (Int.natAbs ((domain.length : Int) - (brand.length : Int))) > 2 then false
  else (lookalikeMatchCount domain brand : ℚ) / (brand.length : ℚ) > 0.8

/-- The per-brand body of the `checkTyposquatting` loop. -/
def typosquatForBrand (domain brand : JStr) : List ThreatIndicator :=
  if jsIncludes domain brand then
    if domain = brand ∨ domain = str "www." ++ brand then []
    else [⟨.typosquatting, .critical, str "Impersonates " ++ brand, domain⟩]
  else
    let distance := levenshteinDistance domain brand
    let similarity : ℚ := 1 - (distance : ℚ) / ((Nat.max domain.length brand.length : Nat) : ℚ)
    (if similarity > 0.8 ∧ distance ≤ 2 then
      [⟨.typosquatting, .high, str "Similar to " ++ brand ++ str " (possible typo)", domain⟩]
    else []) ++
    (if hasLookalikeChars domain brand then
      [⟨.typosquatting, .critical,
        str "Uses lookalike characters to mimic " ++ brand, domain⟩]
    else [])

/-- `checkTyposquatting` of `heuristics.ts`. -/
def checkTyposquatting (hostname : JStr) : List ThreatIndicator :=
  let parts := jsSplitStr [46] hostname
  let domain := jsJoin [46] parts.dropLast
  PROTECTED_BRANDS.flatMap (typosquatForBrand domain)

/-- `checkHomographAttack` of `heuristics.ts`. -/
def checkHomographAttack (hostname : JStr) : List ThreatIndicator :=
  if testMixedScripts hostname then
    [⟨.homograph_attack, .critical,
      str "Uses mixed character sets (homograph attack)", hostname⟩]
  else []

/-- `checkSuspiciousPath` of `heuristics.ts` (first matching pattern only —
the loop breaks after one hit). -/
def checkSuspiciousPath (path : JStr) : List ThreatIndicator :=
  match SUSPICIOUS_PATHS.find? (fun p => jsIncludes (jsToLower path) p.needle) with
  | some p =>
    [⟨.suspicious_path, .medium, str "Suspicious path detected: " ++ p.source, path⟩]
  | none => []

/-- `checkSuspiciousParams` of `heuristics.ts`. -/
def checkSuspiciousParams (query : JStr) : List ThreatIndicator :=
  (searchParamKeys query).filterMap (fun param =>
    let paramLower := jsToLower param
    if SUSPICIOUS_PARAMS.contains paramLower then
      some ⟨.suspicious_params, .high, str "Suspicious parameter: " ++ param, param⟩
    else none)

/-- `checkURLShortener` of `heuristics.ts`. -/
def checkURLShortener (hostname : JStr) : List ThreatIndicator :=
  if URL_SHORTENERS.contains hostname then
    [⟨.url_shortener, .medium,
      str "URL shortener detected (hides real destination)", hostname⟩]
  else []

/-- `checkSuspiciousPort` of `heuristics.ts`. -/
def checkSuspiciousPort (port : JStr) : List ThreatIndicator :=
  if port ≠ [] ∧ port ≠ str "80" ∧ port ≠ str "443" then
    let portNum := digitsToNat port 0
    if SUSPICIOUS_PORTS.contains portNum then
      [⟨.suspicious_port, .high, str "Uses suspicious port: " ++ port, port⟩]
    else
      [⟨.suspicious_port, .low, str "Uses non-standard port: " ++ port, port⟩]
  else []

/-- `checkSuspiciousKeywords` of `heuristics.ts`. -/
def checkSuspiciousKeywords (hostname : JStr) : List ThreatIndicator :=
  match findKeywordMatch hostname with
  | some m =>
    [⟨.suspicious_path, .medium, str "Contains suspicious keyword: " ++ m, m⟩]
  | none => []

/-- `checkExcessiveDashes` of `heuristics.ts`. -/
def checkExcessiveDashes (hostname : JStr) : List ThreatIndicator :=
  if testExcessiveDashes hostname then
    [⟨.excessive_dashes, .low, str "Contains excessive dashes in hostname", hostname⟩]
  else []

/-- `analyzeURLHeuristics` of `heuristics.ts`: parse, run the eleven checks in
order, and on a parse failure (the `catch` branch) return the single
high-severity malformed-URL indicator. -/
def analyzeURLHeuristics (url : JStr) : List ThreatIndicator :=
  match parseURL url with
  | none =>
    [⟨.suspicious_path, .high, str "Malformed or invalid URL", url⟩]
  | some urlObj =>
    let hostname := jsToLower urlObj.host
    let path := jsToLower urlObj.path
    checkIPAddress hostname ++ checkSuspiciousTLD hostname ++
    checkExcessiveSubdomains hostname ++ checkTyposquatting hostname ++
    checkHomographAttack hostname ++ checkSuspiciousPath path ++
    checkSuspiciousParams urlObj.query ++ checkURLShortener hostname ++
    checkSuspiciousPort urlObj.port ++ checkSuspiciousKeywords hostname ++
    checkExcessiveDashes hostname

/-- The severity weights of `calculateThreatScore`. -/
def severityWeight : Severity → ℝ
  | .low => 0.2
  | .medium => 0.5
  | .high => 0.8
  | .critical => 1

/-- `calculateThreatScore` of `heuristics.ts`: normalized severity-weight
average, compressed by `Math.pow(·, 0.8)`. -/
noncomputable def calculateThreatScore (indicators : List ThreatIndicator) : ℝ :=
  if indicators.length = 0 then 0
  else
    let total : ℝ := (indicators.map (fun i => severityWeight i.severity)).sum
    let count : Nat := indicators.length
    let normalized : ℝ := min (total / (Nat.max count 1 : Nat)) 1
    normalized ^ (0.8 : ℝ)

/-! ## Module 1.2: the `URLAnalyzer` class (main analyzer file)

The class's mutable members (`cache`, `config`, `stats`) become an explicit
`AnalyzerState`; `Date.now()` and the elapsed time measured with
`performance.now()` become the parameters `now` and `elapsed`. -/

/-- `CachedResult` of the analyzer file. -/
structure CachedResult where
  result : URLAnalysisResult
  timestamp : Int

/-- The analyzer's instance state. -/
structure AnalyzerState where
  cache : List (JStr × CachedResult)
  config : URLAnalyzerConfig
  stats : AnalyzerStats

/-- The constructor's initial configuration. -/
def initialConfig : URLAnalyzerConfig :=
  ⟨true, 3600000, 0.7, .medium⟩

/-- The constructor's zeroed statistics (also used by `resetStats`). -/
def initialStats : AnalyzerStats := ⟨0, 0, 0, 0, 0, 0, 0⟩

/-- A freshly constructed `URLAnalyzer` whose sensitivity level is `lvl` and
whose other configuration fields are the constructor defaults. -/
def freshAnalyzer (lvl : SensLevel) : AnalyzerState :=
  ⟨[], { initialConfig with sensitivityLevel := lvl }, initialStats⟩

/-- Lookup in the cache `Map` by key. -/
def assocFind (cache : List (JStr × CachedResult)) (k : JStr) : Option CachedResult :=
  match cache with
  | [] => none
  | (k1, v) :: t => if k1 = k then some v else assocFind t k

/-- `Map.delete` by key (insertion order preserved). -/
def assocErase (cache : List (JStr × CachedResult)) (k : JStr) :
    List (JStr × CachedResult) :=
  match cache with
  | [] => []
  | (k1, v) :: t => if k1 = k then t else (k1, v) :: assocErase t k

/-- `Map.set`: replace in place when the key exists, append otherwise. -/
def assocSet (cache : List (JStr × CachedResult)) (k : JStr) (v : CachedResult) :
    List (JStr × CachedResult) :=
  match cache with
  | [] => [(k, v)]
  | (k1, v1) :: t => if k1 = k then (k, v) :: t else (k1, v1) :: assocSet t k v

/-- `getCached` of the analyzer: the looked-up result (subject to the TTL) and
the cache as left behind (an expired entry is deleted). -/
def getCached (cache : List (JStr × CachedResult)) (ttl : Int) (url : JStr)
    (now : Int) : Option URLAnalysisResult × List (JStr × CachedResult) :=
  match assocFind cache url with
  | none => (none, cache)
  | some c =>
    if now - c.timestamp > ttl then (none, assocErase cache url)
    else (some c.result, cache)

/-- `setCached` of the analyzer: evict the oldest entry at capacity 1000, then
`Map.set` the new one. -/
def setCached (cache : List (JStr × CachedResult)) (url : JStr)
    (result : URLAnalysisResult) (now : Int) : List (JStr × CachedResult) :=
  let cache := if cache.length ≥ 1000 then cache.tail else cache
  assocSet cache url ⟨result, now⟩

/-- `normalizeURL` of the analyzer: serialize the parsed URL (`u.href`), strip
one trailing slash, and lower-case the domain segment when the string splits
as `protocol://rest`; on a parse failure, lower-case the raw input. -/
def normalizeURL (url : JStr) : JStr :=
  match parseURL url with
  | none => jsToLower url
  | some u =>
    let normalized := stripTrailingSlash (hrefOf u)
    match jsSplitStr (str "://") normalized with
    | [protocol, rest] =>
      match jsSplitStr [47] rest with
      | [] => normalized
      | domain :: pathParts =>
        protocol ++ str "://" ++ jsToLower domain ++
          (if pathParts ≠ [] then [47] ++ jsJoin [47] pathParts else [])
    | _ => normalized

/-- The `knownSafe` allow-list of `quickSafetyCheck`. -/
def knownSafe : List JStr :=
  [str "google.com", str "www.google.com", str "youtube.com",
   str "www.youtube.com", str "facebook.com", str "www.facebook.com",
   str "github.com", str "www.github.com", str "stackoverflow.com",
   str "www.stackoverflow.com", str "wikipedia.org", str "en.wikipedia.org",
   str "reddit.com", str "www.reddit.com", str "twitter.com",
   str "www.twitter.com", str "amazon.com", str "www.amazon.com",
   str "microsoft.com", str "www.microsoft.com", str "apple.com",
   str "www.apple.com", str "linkedin.com", str "www.linkedin.com"]

/-- The allow-list condition of `quickSafetyCheck` on an (already
lower-cased) hostname: exact membership or subdomain (suffix `.d` for a
listed domain `d`). -/
def isKnownSafeHost (h : JStr) : Bool :=
  knownSafe.contains h || knownSafe.any (fun safe => jsEndsWith h (46 :: safe))

/-- `quickSafetyCheck` of the analyzer (the `catch` branch returns false). -/
def quickSafetyCheck (url : JStr) : Bool :=
  match parseURL url with
  | none => false
  | some u => isKnownSafeHost (jsToLower u.host)

/-- `adjustScoreBySensitivity` of the analyzer. -/
noncomputable def adjustScoreBySensitivity (cfg : URLAnalyzerConfig) (score : ℝ) : ℝ :=
  match cfg.sensitivityLevel with
  | .low => score * 0.8
  | .high => min (score * 1.2) 1
  | .medium => score

open Classical in
/-- `determineVerdict` of the analyzer. -/
noncomputable def determineVerdict (cfg : URLAnalyzerConfig) (score : ℝ)
    (indicators : List ThreatIndicator) : Verdict :=
  if indicators.any (fun i => i.severity = .critical) then .malicious
  else if 2 ≤ (indicators.filter (fun i => i.severity = .high)).length then .malicious
  else if cfg.blockThreshold ≤ score then .malicious
  else if (0.4 : ℝ) ≤ score then .suspicious
  else .safe

/-- The numeric severity order of `generateReason`. -/
def severityOrder : Severity → Nat
  | .critical => 4
  | .high => 3
  | .medium => 2
  | .low => 1

/-- Stable descending sort by severity (the source's comparator sort). -/
def sortBySeverityDesc (l : List ThreatIndicator) : List ThreatIndicator :=
  l.filter (fun i => i.severity = .critical) ++
  l.filter (fun i => i.severity = .high) ++
  l.filter (fun i => i.severity = .medium) ++
  l.filter (fun i => i.severity = .low)

/-- `generateReason` of the analyzer. -/
def generateReason (verdict : Verdict) (indicators : List ThreatIndicator) : JStr :=
  if verdict = .safe then str "No suspicious patterns detected"
  else if indicators.length = 0 then str "Suspicious characteristics detected"
  else
    match (sortBySeverityDesc indicators).take 3 with
    | [a] => a.description
    | [a, b] => a.description ++ str " and " ++ jsToLower b.description
    | [a, b, c] =>
      a.description ++ str ", " ++ jsToLower b.description ++ str ", and " ++
        jsToLower c.description
    | _ => str "Suspicious characteristics detected"

/-- `createSafeResult` of the analyzer. -/
def createSafeResult (url reason : JStr) (now : Int) : URLAnalysisResult :=
  ⟨url, .safe, 0, reason, [], now⟩

/-- `updateStats` of the analyzer (counter updates plus the running average
over the elapsed analysis time). -/
def updateStats (stats : AnalyzerStats) (verdict : Verdict) (elapsed : ℚ) :
    AnalyzerStats :=
  let n := stats.totalAnalyzed + 1
  { stats with
    totalAnalyzed := n
    safeCount := if verdict = .safe then stats.safeCount + 1 else stats.safeCount
    suspiciousCount :=
      if verdict = .suspicious then stats.suspiciousCount + 1 else stats.suspiciousCount
    maliciousCount :=
      if verdict = .malicious then stats.maliciousCount + 1 else stats.maliciousCount
    averageAnalysisTime :=
      (stats.averageAnalysisTime * ((n : ℚ) - 1) + elapsed) / (n : ℚ) }

/-- Apply `updateStats` to the state for a produced result. -/
def applyStats (s : AnalyzerState) (verdict : Verdict) (elapsed : ℚ) : AnalyzerState :=
  { s with stats := updateStats s.stats verdict elapsed }

/-- Bump the cache-hit counter (the `cacheHits++` of the hit branch). -/
def bumpHits (s : AnalyzerState) (cache : List (JStr × CachedResult)) : AnalyzerState :=
  { s with cache := cache,
           stats := { s.stats with cacheHits := s.stats.cacheHits + 1 } }

/-- Bump the cache-miss counter (the `cacheMisses++` of the miss branch). -/
def bumpMisses (s : AnalyzerState) (cache : List (JStr × CachedResult)) : AnalyzerState :=
  { s with cache := cache,
           stats := { s.stats with cacheMisses := s.stats.cacheMisses + 1 } }

/-- Store a result in the cache when caching is enabled. -/
def cacheStep (s : AnalyzerState) (normalized : JStr) (result : URLAnalysisResult)
    (now : Int) : AnalyzerState :=
  if s.config.cacheEnabled then
    { s with cache := setCached s.cache normalized result now }
  else s

/-- `analyzeURL` of the analyzer: cache lookup by the *raw* url string, then
quick allow-list check of the normalized url, then the full heuristic
pipeline; every produced result updates the stats and is cached under the
normalized url. -/
noncomputable def analyzeURL (s : AnalyzerState) (url : JStr) (now : Int)
    (elapsed : ℚ) : URLAnalysisResult × AnalyzerState :=
  let afterCache : (URLAnalysisResult × AnalyzerState) ⊕ AnalyzerState :=
    if s.config.cacheEnabled then
      let gc := getCached s.cache s.config.cacheTTL url now
      match gc.1 with
      | some r => Sum.inl (r, bumpHits s gc.2)
      | none => Sum.inr (bumpMisses s gc.2)
    else Sum.inr s
  match afterCache with
  | Sum.inl out => out
  | Sum.inr s1 =>
    let normalized := normalizeURL url
    if quickSafetyCheck normalized then
      let result := createSafeResult normalized (str "Passed quick safety checks") now
      (result, cacheStep (applyStats s1 result.verdict elapsed) normalized result now)
    else
      let indicators := analyzeURLHeuristics normalized
      let score := calculateThreatScore indicators
      let adjusted := adjustScoreBySensitivity s1.config score
      let verdict := determineVerdict s1.config adjusted indicators
      let reason := generateReason verdict indicators
      let result : URLAnalysisResult := ⟨normalized, verdict, adjusted, reason, indicators, now⟩
      (result, cacheStep (applyStats s1 result.verdict elapsed) normalized result now)

/-! ## Module 2.3: Website Behavior Monitor (`WebsiteBehaviorMonitor.ts`)

`analyzePageLoad` is modelled at the profile level: URL parsing, profile-map
lookup and the external behavior collector become parameters (the collector's
possibly-null return is an `Option`). -/

/-- The recommendation verbs of the anomaly types. -/
inductive Recommendation where
  | monitor | warn | block | disable | uninstall
  deriving DecidableEq, Repr

/-- Categories of `AnomalyIndicator` (behavior-monitor `types.ts`). -/
inductive AnomalyCategory where
  | script | network | dom | storage | crypto | keylogger
  deriving DecidableEq, Repr

/-- The heterogeneous `evidence: any` payload of an `AnomalyIndicator`. -/
inductive Evidence where
  | strings (l : List JStr)
  | stats (current : Nat) (baseline : ℝ)
  | text (s : JStr)

/-- `AnomalyIndicator` of the behavior-monitor `types.ts`. -/
structure AnomalyIndicator where
  category : AnomalyCategory
  description : JStr
  deviationScore : ℝ
  evidence : Evidence

/-- `BehaviorAnomaly` of the behavior-monitor `types.ts`. -/
structure BehaviorAnomaly where
  targetId : JStr
  targetName : JStr
  detectedAt : Int
  severity : Severity
  indicators : List AnomalyIndicator
  confidence : ℝ
  recommendation : Recommendation

/-- One script entry of `PageBehaviorData`. -/
inductive ScriptType where
  | external | inline
  deriving DecidableEq, Repr

/-- A script observed on the page. -/
structure PageScript where
  type : ScriptType
  src : Option JStr
  domain : Option JStr
  hash : Option JStr
  length : Option Nat
  deriving DecidableEq, Repr

/-- A network request observed on the page. -/
structure NetworkRequest where
  domain : JStr
  type : JStr
  url : JStr
  deriving DecidableEq, Repr

/-- The `storageAccess` / `cookieAccess` triple. -/
structure AccessCounts where
  read : Nat
  write : Nat
  delete : Nat
  deriving DecidableEq, Repr

/-- The four suspicious-API flags. -/
structure SuspiciousAPIs where
  hasWebGL : Bool
  hasAudioContext : Bool
  hasRTC : Bool
  hasCrypto : Bool
  deriving DecidableEq, Repr

/-- `PageBehaviorData` of the behavior-monitor `types.ts`. -/
structure PageBehaviorData where
  scripts : List PageScript
  networkRequests : List NetworkRequest
  domModifications : Nat
  storageAccess : AccessCounts
  suspiciousAPIs : SuspiciousAPIs
  deriving DecidableEq, Repr

/-- A mean/standard-deviation pair of the baseline record. -/
structure MeanStd where
  mean : ℝ
  stdDev : ℝ

/-- The `baseline` record of a `WebsiteBehaviorProfile`. -/
structure BaselineRecord where
  scriptCount : MeanStd
  requestCount : MeanStd
  domModRate : MeanStd
  updatedAt : Int

/-- `WebsiteBehaviorProfile` of the behavior-monitor `types.ts`. -/
structure WebsiteBehaviorProfile where
  domain : JStr
  firstSeen : Int
  lastVisit : Int
  visitCount : Nat
  baselineLocked : Bool
  scriptHashes : List JStr
  scriptDomains : List JStr
  scriptUrls : Option (List JStr)
  inlineScriptCount : Nat
  networkDomains : List JStr
  apiEndpoints : List JStr
  averageRequestCount : Nat
  domModificationRate : Nat
  formSubmissions : List JStr
  cookieAccess : AccessCounts
  localStorageKeys : List JStr
  resourceTypes : List (JStr × Nat)
  baseline : BaselineRecord

namespace WebsiteBehaviorMonitor

/-- `MIN_VISITS_FOR_BASELINE`. -/
def MIN_VISITS_FOR_BASELINE : Nat := 5

/-- `ANOMALY_THRESHOLD` (standard deviations). -/
noncomputable def ANOMALY_THRESHOLD : ℝ := 2.5

/-- The fresh profile of `getOrCreateProfile`. -/
def freshProfile (domain : JStr) (now : Int) : WebsiteBehaviorProfile :=
  { domain := domain, firstSeen := now, lastVisit := now, visitCount := 0,
    baselineLocked := false, scriptHashes := [], scriptDomains := [],
    scriptUrls := none, inlineScriptCount := 0, networkDomains := [],
    apiEndpoints := [], averageRequestCount := 0, domModificationRate := 0,
    formSubmissions := [], cookieAccess := ⟨0, 0, 0⟩, localStorageKeys := [],
    resourceTypes := [],
    baseline := ⟨⟨0, 0⟩, ⟨0, 0⟩, ⟨0, 0⟩, 0⟩ }

/-- The script-tracking `forEach` of `updateProfile`, threading the three
script collections. -/
def updScript (acc : List JStr × Option (List JStr) × List JStr) (s : PageScript) :
    List JStr × Option (List JStr) × List JStr :=
  let (domains, urls, hashes) := acc
  if s.type = .external ∧ jsTruthy s.domain then
    let domains := pushIfNew domains (s.domain.getD [])
    if jsTruthy s.src then
      (domains, some (pushIfNew (urls.getD []) (s.src.getD [])), hashes)
    else (domains, urls, hashes)
  else if s.type = .inline ∧ jsTruthy s.hash then
    (domains, urls, pushIfNew hashes (s.hash.getD []))
  else (domains, urls, hashes)

open Classical in
/-- `updateProfile` of `WebsiteBehaviorMonitor`: bump the counters, lock the
baseline once the visit counter reaches the learning threshold, and mutate the
descriptive baseline fields only while unlocked. -/
noncomputable def updateProfile (p : WebsiteBehaviorProfile)
    (behavior : PageBehaviorData) (now : Int) : WebsiteBehaviorProfile :=
  let p := { p with lastVisit := now, visitCount := p.visitCount + 1 }
  let p :=
    if p.visitCount ≥ MIN_VISITS_FOR_BASELINE ∧ ¬p.baselineLocked then
      { p with baselineLocked := true }
    else p
  if ¬p.baselineLocked then
    let acc :=
      behavior.scripts.foldl updScript (p.scriptDomains, p.scriptUrls, p.scriptHashes)
    let domains := acc.1
    let urls := acc.2.1
    let hashes := acc.2.2
    let networkDomains :=
      behavior.networkRequests.foldl (fun acc r => pushIfNew acc r.domain) p.networkDomains
    let alpha : ℝ := 0.3
    let newScriptCount : ℝ := (behavior.scripts.length : ℝ)
    let newRequestCount : ℝ := (behavior.networkRequests.length : ℝ)
    let scriptMean :=
      if p.baseline.scriptCount.mean = 0 then newScriptCount
      else alpha * newScriptCount + (1 - alpha) * p.baseline.scriptCount.mean
    let requestMean :=
      if p.baseline.scriptCount.mean = 0 then newRequestCount
      else alpha * newRequestCount + (1 - alpha) * p.baseline.requestCount.mean
    let scriptStd := max (Real.sqrt |newScriptCount - scriptMean|) 0.5
    let requestStd := max (Real.sqrt |newRequestCount - requestMean|) 0.5
    { p with
      scriptDomains := domains
      scriptUrls := urls
      scriptHashes := hashes
      networkDomains := networkDomains
      baseline :=
        { scriptCount := ⟨scriptMean, scriptStd⟩
          requestCount := ⟨requestMean, requestStd⟩
          domModRate := p.baseline.domModRate
          updatedAt := now } }
  else p

/-- The new-script filter of `detectAnomalies`. -/
def isNewScript (p : WebsiteBehaviorProfile) (s : PageScript) : Bool :=
  match s.type with
  | .external =>
    if jsTruthy s.src ∧ (match p.scriptUrls with
        | some l => l.length > 0
        | none => false) = true then
      !((p.scriptUrls.getD []).contains (s.src.getD []))
    else if jsTruthy s.domain then
      !(p.scriptDomains.contains (s.domain.getD []))
    else false
  | .inline =>
    if jsTruthy s.hash then !(p.scriptHashes.contains (s.hash.getD [])) else false

/-- The evidence strings for new scripts. -/
def scriptEvidence (s : PageScript) : JStr :=
  if jsTruthy s.src then s.src.getD []
  else if jsTruthy s.hash then str "inline-" ++ (s.hash.getD []).take 8
  else str "inline-unknown"

/-- `detectCryptoMining` of `WebsiteBehaviorMonitor`: collect the four
composite signals and flag when at least two hold. -/
def detectCryptoMining (behavior : PageBehaviorData) : Bool :=
  let indicators : List JStr :=
    (if behavior.suspiciousAPIs.hasWebGL then [str "webgl"] else []) ++
    (if behavior.scripts.any (fun s => jsTruthy s.src ∧
        (jsIncludes (s.src.getD []) (str "coinhive") ∨
         jsIncludes (s.src.getD []) (str "coin-hive") ∨
         jsIncludes (s.src.getD []) (str "cryptoloot") ∨
         jsIncludes (s.src.getD []) (str "jsecoin") ∨
         jsIncludes (s.src.getD []) (str "crypto-loot"))) then
      [str "known-miner-script"] else []) ++
    (if behavior.networkRequests.any (fun r =>
        [str "coinhive", str "coin-hive", str "cryptoloot", str "jsecoin",
         str "crypto-loot"].any (fun md => jsIncludes r.domain md)) then
      [str "known-miner-domain"] else []) ++
    (if behavior.networkRequests.any (fun r =>
        (str "ws://").isPrefixOf r.url ∨ (str "wss://").isPrefixOf r.url) ∧
        behavior.suspiciousAPIs.hasWebGL then
      [str "websocket-webgl-combo"] else [])
  indicators.length ≥ 2

/-- `detectSuspiciousAPIs` of `WebsiteBehaviorMonitor`. -/
def detectSuspiciousAPIs (behavior : PageBehaviorData) : List JStr :=
  (if behavior.suspiciousAPIs.hasRTC then [str "WebRTC"] else []) ++
  (if behavior.suspiciousAPIs.hasAudioContext then [str "AudioContext"] else [])

open Classical in
/-- `calculateSeverity` of `WebsiteBehaviorMonitor`. -/
noncomputable def calculateSeverity (indicators : List AnomalyIndicator) : Severity :=
  let maxDeviation := (indicators.map (fun i => i.deviationScore)).foldl max 0
  if indicators.any (fun i => i.category = .crypto ∨ i.category = .keylogger) then
    .critical
  else if maxDeviation > 5 then .high
  else if maxDeviation > 3 then .medium
  else .low

open Classical in
/-- `detectAnomalies` of `WebsiteBehaviorMonitor`. -/
noncomputable def detectAnomalies (p : WebsiteBehaviorProfile)
    (currentBehavior : PageBehaviorData) (now : Int) : Option BehaviorAnomaly :=
  let newScripts := currentBehavior.scripts.filter (isNewScript p)
  let ind1 : List AnomalyIndicator :=
    if newScripts.length > 0 then
      [⟨.script,
        str (Nat.repr newScripts.length) ++
          str " new script(s) detected that were not seen before",
        (newScripts.length : ℝ) * 2,
        .strings (newScripts.map scriptEvidence)⟩]
    else []
  let newDomains := (currentBehavior.networkRequests.filter
    (fun r => !(p.networkDomains.contains r.domain))).map (fun r => r.domain)
  let ind2 : List AnomalyIndicator :=
    if newDomains.length > 0 then
      let uniqueDomains := newDomains.eraseDups
      [⟨.network,
        str "Contacting " ++ str (Nat.repr uniqueDomains.length) ++
          str " new domain(s)",
        (uniqueDomains.length : ℝ),
        .strings uniqueDomains⟩]
    else []
  let scriptCount := currentBehavior.scripts.length
  let scriptDeviation : ℝ :=
    min (|((scriptCount : ℝ) - p.baseline.scriptCount.mean) /
          (if p.baseline.scriptCount.stdDev = 0 then 1 else p.baseline.scriptCount.stdDev)|)
      10
  let ind3 : List AnomalyIndicator :=
    if scriptDeviation > ANOMALY_THRESHOLD then
      [⟨.script, str "Abnormal script count", scriptDeviation,
        .stats scriptCount p.baseline.scriptCount.mean⟩]
    else []
  let ind4 : List AnomalyIndicator :=
    if detectCryptoMining currentBehavior then
      [⟨.crypto, str "Cryptocurrency mining activity detected", 10,
        .text (str "WebGL + suspicious script patterns")⟩]
    else []
  let indicators := ind1 ++ ind2 ++ ind3 ++ ind4
  let suspiciousAPIs := detectSuspiciousAPIs currentBehavior
  let indicators :=
    if indicators.length > 0 ∧ suspiciousAPIs.length > 0 then
      indicators ++
        [⟨.script, str "Suspicious API usage", (suspiciousAPIs.length : ℝ),
          .strings suspiciousAPIs⟩]
    else indicators
  if indicators.length = 0 then none
  else
    let maxDeviation := (indicators.map (fun i => i.deviationScore)).foldl max 0
    let severity := calculateSeverity indicators
    some
      { targetId := p.domain, targetName := p.domain, detectedAt := now,
        severity := severity, indicators := indicators,
        confidence := min (maxDeviation / 10) 1,
        recommendation :=
          if severity = .critical then .block
          else if severity = .high then .warn
          else .monitor }

/-- `analyzePageLoad` of `WebsiteBehaviorMonitor` at the profile level: a null
collection returns without touching the profile; otherwise anomalies are
detected against the current baseline only once `visitCount` has reached the
learning threshold, and the profile is updated afterwards. -/
noncomputable def analyzePageLoad (p : WebsiteBehaviorProfile)
    (currentBehavior : Option PageBehaviorData) (now : Int) :
    Option BehaviorAnomaly × WebsiteBehaviorProfile :=
  match currentBehavior with
  | none => (none, p)
  | some behavior =>
    let anomaly :=
      if p.visitCount ≥ MIN_VISITS_FOR_BASELINE then detectAnomalies p behavior now
      else none
    (anomaly, updateProfile p behavior now)

end WebsiteBehaviorMonitor

/-! ## Module 1.1: JavaScript Controller (`JSController` class)

Detection rules carry a regex; the regex engine is a platform collaborator,
so a rule's matchable expression is modelled as its matcher function
`test : JStr → Bool` together with the rule's metadata. -/

/-- The blocking modes. -/
inductive JSMode where
  | strict | moderate | permissive
  deriving DecidableEq, Repr

/-- Categories of detection rules. -/
inductive PatternCategory where
  | cryptomining | injection | obfuscation | malware | tracking
  deriving DecidableEq, Repr

/-- `SuspiciousPattern` of the JS-controller `types.ts` (the `RegExp` member
becomes its matcher function). -/
structure SuspiciousPattern where
  id : JStr
  name : JStr
  test : JStr → Bool
  description : JStr
  severity : Severity
  category : PatternCategory

/-- `JSControllerConfig` of the JS-controller `types.ts`. -/
structure JSControllerConfig where
  enabled : Bool
  mode : JSMode
  whitelist : List JStr
  patterns : List SuspiciousPattern

/-- `ScriptAnalysisResult` of the JS-controller `types.ts`. -/
structure ScriptAnalysisResult where
  isSuspicious : Bool
  matchedPatterns : List SuspiciousPattern
  shouldBlock : Bool
  confidence : ℚ

namespace JSController

/-- The default whitelist of the constructor. -/
def defaultWhitelist : List JStr :=
  [str "google.com", str "youtube.com", str "github.com"]

/-- The negative result returned by the disabled / whitelisted / no-match
short circuits. -/
def negativeResult : ScriptAnalysisResult :=
  ⟨false, [], false, 0⟩

/-- `isWhitelisted` of `JSController`: hostname of the script URL contains
a whitelist entry as a substring (`String.prototype.includes`); a parse
failure returns false. -/
def isWhitelisted (cfg : JSControllerConfig) (url : JStr) : Bool :=
  match parseURL url with
  | none => false
  | some u => cfg.whitelist.any (fun domain => jsIncludes u.host domain)

/-- The severity scores of `calculateConfidence`. -/
def severityScore : Severity → ℚ
  | .low => 0.25
  | .medium => 0.5
  | .high => 0.75
  | .critical => 1

/-- `calculateConfidence` of `JSController`. -/
def calculateConfidence (patterns : List SuspiciousPattern) : ℚ :=
  if patterns.length = 0 then 0
  else
    let maxScore := (patterns.map (fun p => severityScore p.severity)).foldl max 0
    let bonus := min ((patterns.length : ℚ) * 0.1) 0.3
    min (maxScore + bonus) 1

/-- `shouldBlockScript` of `JSController` (the `confidence` argument is
received but, as in the source, not consulted). -/
def shouldBlockScript (mode : JSMode) (patterns : List SuspiciousPattern)
    (confidence : ℚ) : Bool :=
  let hasCritical := patterns.any (fun p => p.severity = .critical)
  let hasHigh := patterns.any (fun p => p.severity = .high)
  match mode with
  | .strict => patterns.length > 0
  | .moderate => hasCritical || hasHigh
  | .permissive => hasCritical

/-- `analyzeScript` of `JSController`. -/
def analyzeScript (cfg : JSControllerConfig) (scriptContent scriptUrl : JStr) :
    ScriptAnalysisResult :=
  if !cfg.enabled then negativeResult
  else if isWhitelisted cfg scriptUrl then negativeResult
  else
    let matchedPatterns := cfg.patterns.filter (fun p => p.test scriptContent)
    if matchedPatterns.length = 0 then negativeResult
    else
      let confidence := calculateConfidence matchedPatterns
      ⟨true, matchedPatterns, shouldBlockScript cfg.mode matchedPatterns confidence,
       confidence⟩

end JSController

/-! ## Module 1.3: Extension Scanner (`ExtensionScanner` class)

`scanExtension` is modelled at the profile level: the stored profile of the
extension and the currently enumerated `chrome.management.ExtensionInfo`
become parameters. -/

/-- The fields of `chrome.management.ExtensionInfo` consumed by the scanner
(optional members are `Option`s, as the API delivers). -/
structure ExtensionInfo where
  id : JStr
  name : JStr
  version : JStr
  permissions : Option (List JStr)
  hostPermissions : Option (List JStr)
  updateUrl : Option JStr
  deriving DecidableEq, Repr

/-- The `baseline` record of an `ExtensionProfile`. -/
structure ExtBaseline where
  networkActivityPerHour : Nat
  storageWritesPerDay : Nat
  updatedAt : Int
  deriving DecidableEq, Repr

/-- `ExtensionProfile` of the extension-scanner types. -/
structure ExtensionProfile where
  id : JStr
  name : JStr
  version : JStr
  firstSeen : Int
  lastChecked : Int
  permissions : List JStr
  hostPermissions : List JStr
  optionalPermissions : List JStr
  contentScriptInjections : List (JStr × Nat)
  backgroundRequests : List JStr
  storageKeys : List JStr
  manifestHash : JStr
  contentScriptHashes : List JStr
  backgroundScriptHash : JStr
  riskScore : Nat
  riskFactors : List JStr
  baseline : ExtBaseline
  deriving DecidableEq, Repr

/-- The change types of an `ExtensionChange`. -/
inductive ChangeType where
  | permission | code | behavior | network
  deriving DecidableEq, Repr

/-- `ExtensionChange` of the extension-scanner types (old/new values are kept
as opaque description text in the model). -/
structure ExtensionChange where
  type : ChangeType
  description : JStr
  riskLevel : Nat
  deriving DecidableEq, Repr

/-- `ExtensionAnomaly` of the extension-scanner types. -/
structure ExtensionAnomaly where
  extensionId : JStr
  extensionName : JStr
  targetId : JStr
  targetName : JStr
  detectedAt : Int
  severity : Severity
  changes : List ExtensionChange
  confidence : ℚ
  recommendation : Recommendation
  deriving DecidableEq, Repr

namespace ExtensionScanner

/-- `RISKY_PERMISSIONS`. -/
def RISKY_PERMISSIONS : List JStr :=
  [str "cookies", str "webRequest", str "webRequestBlocking", str "proxy",
   str "debugger", str "management", str "nativeMessaging",
   str "desktopCapture", str "tabCapture"]

/-- The all-hosts wildcard permission. -/
def allUrls : JStr := str "<all_urls>"

/-- `calculateRiskScore` of `ExtensionScanner`. -/
def calculateRiskScore (ext : ExtensionInfo) : Nat :=
  let permissions := ext.permissions.getD []
  let hostPermissions := ext.hostPermissions.getD []
  let score :=
    (permissions.filter (fun p => RISKY_PERMISSIONS.contains p)).length * 20
  let score := score + (if hostPermissions.contains allUrls then 30 else 0)
  let score := score + (if hostPermissions.length > 10 then 15 else 0)
  let score := score +
    (if (match ext.updateUrl with
         | none => true
         | some u => u = [] ∨ ¬jsIncludes u (str "clients2.google.com")) then 25 else 0)
  let score := score +
    (if permissions.contains (str "webRequest") ∧ permissions.contains (str "tabs")
     then 20 else 0)
  Nat.min score 100

/-- `calculatePermissionRisk` of `ExtensionScanner`. -/
def calculatePermissionRisk (permissions : List JStr) : Nat :=
  let risk := permissions.foldl
    (fun acc p => acc + (if RISKY_PERMISSIONS.contains p then 3 else 1)) 0
  Nat.min risk 10

/-- `calculateSeverity` of `ExtensionScanner`. -/
def calculateSeverity (maxRisk : Nat) : Severity :=
  if maxRisk ≥ 9 then .critical
  else if maxRisk ≥ 7 then .high
  else if maxRisk ≥ 4 then .medium
  else .low

/-- `getRecommendation` of `ExtensionScanner`. -/
def getRecommendation (severity : Severity) (changes : List ExtensionChange) :
    Recommendation :=
  let hasPermissionChanges := changes.any (fun c => c.type = .permission)
  let hasCriticalPermissions := changes.any (fun c => c.riskLevel ≥ 9)
  if severity = .critical ∨ hasCriticalPermissions then .uninstall
  else if severity = .high then
    (if hasPermissionChanges then .disable else .warn)
  else if severity = .medium then .warn
  else .monitor

/-- The new permissions detected by `scanExtension` (step 1). -/
def newPermissionsOf (profile : ExtensionProfile) (ext : ExtensionInfo) : List JStr :=
  (ext.permissions.getD []).filter (fun p => !(profile.permissions.contains p))

/-- The permission-diff change of `scanExtension` (step 1). -/
def permChangesOf (profile : ExtensionProfile) (ext : ExtensionInfo) :
    List ExtensionChange :=
  let newPermissions := newPermissionsOf profile ext
  if newPermissions.length > 0 then
    [⟨.permission,
      str "Requested " ++ str (Nat.repr newPermissions.length) ++
        str " new permission(s): " ++ jsJoin (str ", ") newPermissions,
      calculatePermissionRisk newPermissions⟩]
  else []

/-- The version-diff change of `scanExtension` (step 2). -/
def versionChangesOf (profile : ExtensionProfile) (ext : ExtensionInfo) :
    List ExtensionChange :=
  if profile.version ≠ [] ∧ ext.version ≠ profile.version then
    [⟨.code,
      str "Extension updated from v" ++ profile.version ++ str " to v" ++ ext.version,
      3⟩]
  else []

/-- The new host permissions detected by `scanExtension` (step 3). -/
def newHostsOf (profile : ExtensionProfile) (ext : ExtensionInfo) : List JStr :=
  (ext.hostPermissions.getD []).filter
    (fun h => !(profile.hostPermissions.contains h))

/-- The host-permission-diff change of `scanExtension` (step 3): riskLevel 10
when the wildcard `<all_urls>` is among the new hosts, 5 otherwise. -/
def hostChangesOf (profile : ExtensionProfile) (ext : ExtensionInfo) :
    List ExtensionChange :=
  let newHosts := newHostsOf profile ext
  if newHosts.length > 0 then
    [⟨.permission,
      str "Can now access " ++ str (Nat.repr newHosts.length) ++
        str " new website(s): " ++ jsJoin (str ", ") newHosts,
      if newHosts.contains allUrls then 10 else 5⟩]
  else []

/-- The risk-score-jump change of `scanExtension` (step 4). -/
def behaviorChangesOf (profile : ExtensionProfile) (ext : ExtensionInfo) :
    List ExtensionChange :=
  let currentRiskScore := calculateRiskScore ext
  if currentRiskScore > profile.riskScore + 20 then
    [⟨.behavior,
      str "Risk score increased significantly: " ++ str (Nat.repr profile.riskScore) ++
        str " → " ++ str (Nat.repr currentRiskScore),
      8⟩]
  else []

/-- The change list built by `scanExtension` (permission diff, version diff,
host-permission diff, risk-score jump — in the source's order). -/
def scanChanges (profile : ExtensionProfile) (ext : ExtensionInfo) :
    List ExtensionChange :=
  permChangesOf profile ext ++ versionChangesOf profile ext ++
  hostChangesOf profile ext ++ behaviorChangesOf profile ext

/-- `updateProfile` of `ExtensionScanner`. -/
def updateProfile (profile : ExtensionProfile) (ext : ExtensionInfo) (now : Int) :
    ExtensionProfile :=
  { profile with
    name := ext.name
    version := ext.version
    lastChecked := now
    permissions := ext.permissions.getD []
    hostPermissions := ext.hostPermissions.getD []
    optionalPermissions := []
    riskScore := calculateRiskScore ext }

/-- `scanExtension` of `ExtensionScanner`: diff against the stored profile,
update the profile unconditionally, and raise an anomaly when any change was
found, with severity derived from the maximum per-change risk level. -/
def scanExtension (profile : ExtensionProfile) (ext : ExtensionInfo) (now : Int) :
    Option ExtensionAnomaly × ExtensionProfile :=
  let changes := scanChanges profile ext
  let profile2 := updateProfile profile ext now
  if changes.length = 0 then (none, profile2)
  else
    let maxRisk := (changes.map (fun c => c.riskLevel)).foldl Nat.max 0
    let severity := calculateSeverity maxRisk
    (some
      { extensionId := ext.id, extensionName := ext.name,
        targetId := ext.id, targetName := ext.name, detectedAt := now,
        severity := severity, changes := changes,
        confidence := min ((maxRisk : ℚ) / 10) 1,
        recommendation := getRecommendation severity changes },
     profile2)

end ExtensionScanner

/-! ## Definitions supporting the claim statements -/

/-- Signal 1 of the cryptomining composite check: a WebGL context is present. -/
def hasWebGLSignal (behavior : PageBehaviorData) : Bool :=
  behavior.suspiciousAPIs.hasWebGL

/-- Signal 2: some script URL contains a known-miner substring. -/
def hasMinerScriptSignal (behavior : PageBehaviorData) : Bool :=
  behavior.scripts.any (fun s => jsTruthy s.src ∧
    (jsIncludes (s.src.getD []) (str "coinhive") ∨
     jsIncludes (s.src.getD []) (str "coin-hive") ∨
     jsIncludes (s.src.getD []) (str "cryptoloot") ∨
     jsIncludes (s.src.getD []) (str "jsecoin") ∨
     jsIncludes (s.src.getD []) (str "crypto-loot")))

/-- Signal 3: some network request goes to a known-miner domain. -/
def hasMinerDomainSignal (behavior : PageBehaviorData) : Bool :=
  behavior.networkRequests.any (fun r =>
    [str "coinhive", str "coin-hive", str "cryptoloot", str "jsecoin",
     str "crypto-loot"].any (fun md => jsIncludes r.domain md))

/-- Signal 4: a WebSocket request co-occurs with WebGL. -/
def hasWSWebGLSignal (behavior : PageBehaviorData) : Bool :=
  behavior.networkRequests.any (fun r =>
    (str "ws://").isPrefixOf r.url ∨ (str "wss://").isPrefixOf r.url) &&
  behavior.suspiciousAPIs.hasWebGL

/-- The number of cryptomining composite signals that hold. -/
def cryptoSignalCount (behavior : PageBehaviorData) : Nat :=
  (if hasWebGLSignal behavior then 1 else 0) +
  (if hasMinerScriptSignal behavior then 1 else 0) +
  (if hasMinerDomainSignal behavior then 1 else 0) +
  (if hasWSWebGLSignal behavior then 1 else 0)

/-- The domain part of a hostname as used by `checkTyposquatting`: the
hostname minus its final dot-separated label. -/
def domainOf (hostname : JStr) : JStr :=
  jsJoin [46] ((jsSplitStr [46] hostname).dropLast)

/-- The single malformed-URL indicator of the heuristic analyzer's `catch`
branch. -/
def malformedIndicator (url : JStr) : ThreatIndicator :=
  ⟨.suspicious_path, .high, str "Malformed or invalid URL", url⟩

/-- The critical brand-impersonation indicator of `checkTyposquatting`. -/
def impersonationIndicator (brand domain : JStr) : ThreatIndicator :=
  ⟨.typosquatting, .critical, str "Impersonates " ++ brand, domain⟩

/-! ### Integer-arithmetic evaluation forms

The similarity thresholds of the typosquatting check divide in `ℚ`; the
following twins state the same comparisons over `ℕ` (proved equivalent
below), so that concrete instances can be evaluated by `decide`. -/

/-- `hasLookalikeChars` with its ratio comparison
`matchCount / brandLen > 0.8` stated as `4 * brandLen < 5 * matchCount`. -/
def hasLookalikeCharsN (domain brand : JStr) : Bool :=
  decide ((Int.natAbs ((domain.length : Int) - (brand.length : Int))) ≤ 2) &&
  decide (4 * brand.length < 5 * lookalikeMatchCount domain brand)

/-- `typosquatForBrand` with its similarity comparison
`1 - distance / max(len d, len b) > 0.8` stated as
`5 * distance < max(len d, len b)`. -/
def typosquatForBrandN (domain brand : JStr) : List ThreatIndicator :=
  if jsIncludes domain brand then
    if domain = brand ∨ domain = str "www." ++ brand then []
    else [⟨.typosquatting, .critical, str "Impersonates " ++ brand, domain⟩]
  else
    let distance := levenshteinDistance domain brand
    (if 5 * distance < Nat.max domain.length brand.length ∧ distance ≤ 2 then
      [⟨.typosquatting, .high, str "Similar to " ++ brand ++ str " (possible typo)", domain⟩]
    else []) ++
    (if hasLookalikeCharsN domain brand then
      [⟨.typosquatting, .critical,
        str "Uses lookalike characters to mimic " ++ brand, domain⟩]
    else [])

/-- `checkTyposquatting` over the evaluation twins. -/
def checkTyposquattingN (hostname : JStr) : List ThreatIndicator :=
  let parts := jsSplitStr [46] hostname
  let domain := jsJoin [46] parts.dropLast
  PROTECTED_BRANDS.flatMap (typosquatForBrandN domain)

/-! # Theorems

First the sanity checks and helper lemmas, then one theorem per claim
(with witness / counterexample theorems where applicable). -/

example : parseURL (str "http://www.Example.com/A/b?q=1") =
    some ⟨str "http", str "www.example.com", [], str "/A/b", str "q=1"⟩ := by decide

example : parseURL (str "not a url") = none := by decide

example : parseURL (str "https://a.b.c:8080?x") =
    some ⟨str "https", str "a.b.c", str "8080", str "/", str "x"⟩ := by decide

example : jsSplitStr (str "://") (str "http://a.com") = [str "http", str "a.com"] := by decide

example : stripTrailingSlash (str "http://a.com/") = str "http://a.com" := by decide

example : levenshteinDistance (str "facebok") (str "facebook") = 1 := by decide

example : normalizeURL (str "http://EXAMPLE.com/") = str "http://example.com" := by decide

/-! ## Claim C7 -/

/-- **C7** — The behavior monitor's cryptomining composite check returns true
exactly when at least two of the four signals (WebGL present, known-miner
script substring, known-miner-domain request, WebSocket co-occurring with
WebGL) hold; in particular a page with a `coinhive` script URL plus a WebGL
probe triggers it, while WebGL alone does not. -/
theorem c7_crypto_composite_check :
    (∀ behavior : PageBehaviorData,
      WebsiteBehaviorMonitor.detectCryptoMining behavior = true ↔
        2 ≤ cryptoSignalCount behavior) ∧
    WebsiteBehaviorMonitor.detectCryptoMining
      ⟨[⟨.external, some (str "https://cdn.evil.com/coinhive.min.js"),
         some (str "cdn.evil.com"), none, none⟩], [], 0, ⟨0, 0, 0⟩,
       ⟨true, false, false, false⟩⟩ = true ∧
    WebsiteBehaviorMonitor.detectCryptoMining
      ⟨[], [], 0, ⟨0, 0, 0⟩, ⟨true, false, false, false⟩⟩ = false := by
  refine ⟨fun behavior => ?_, by decide, by decide⟩
  unfold WebsiteBehaviorMonitor.detectCryptoMining cryptoSignalCount
    hasWebGLSignal hasMinerScriptSignal hasMinerDomainSignal hasWSWebGLSignal
  cases h1 : behavior.suspiciousAPIs.hasWebGL <;>
  cases h2 : behavior.scripts.any (fun s => jsTruthy s.src ∧
      (jsIncludes (s.src.getD []) (str "coinhive") ∨
       jsIncludes (s.src.getD []) (str "coin-hive") ∨
       jsIncludes (s.src.getD []) (str "cryptoloot") ∨
       jsIncludes (s.src.getD []) (str "jsecoin") ∨
       jsIncludes (s.src.getD []) (str "crypto-loot"))) <;>
  cases h3 : behavior.networkRequests.any (fun r =>
      [str "coinhive", str "coin-hive", str "cryptoloot", str "jsecoin",
       str "crypto-loot"].any (fun md => jsIncludes r.domain md)) <;>
  cases h4 : behavior.networkRequests.any (fun r =>
      (str "ws://").isPrefixOf r.url ∨ (str "wss://").isPrefixOf r.url) <;>
  simp only [h1, h2, h3, h4, Bool.true_and, Bool.false_and, if_true, if_false,
    Bool.and_self] <;>
  simp

/-! ## Claim C8 -/

/-- **C8** — With a non-empty set of matched rules, the block decision is
determined by the mode: strict blocks on any match, moderate exactly when a
high or critical match exists, permissive exactly when a critical match
exists. -/
theorem c8_mode_block_decision (patterns : List SuspiciousPattern) (confidence : ℚ)
    (hne : patterns ≠ []) :
    JSController.shouldBlockScript .strict patterns confidence = true ∧
    (JSController.shouldBlockScript .moderate patterns confidence = true ↔
      ∃ p ∈ patterns, p.severity = .high ∨ p.severity = .critical) ∧
    (JSController.shouldBlockScript .permissive patterns confidence = true ↔
      ∃ p ∈ patterns, p.severity = .critical) := by
  unfold JSController.shouldBlockScript
  refine ⟨?_, ?_, ?_⟩
  · simpa [List.length_pos] using hne
  · simp only [Bool.or_eq_true, List.any_eq_true, decide_eq_true_eq]
    constructor
    · rintro (⟨p, hp, hsev⟩ | ⟨p, hp, hsev⟩)
      · exact ⟨p, hp, Or.inr hsev⟩
      · exact ⟨p, hp, Or.inl hsev⟩
    · rintro ⟨p, hp, hsev | hsev⟩
      · exact Or.inr ⟨p, hp, hsev⟩
      · exact Or.inl ⟨p, hp, hsev⟩
  · simp [List.any_eq_true]

/-- Witness for C8: a single low-severity match is blocked in strict mode and
not in moderate or permissive mode. -/
theorem c8_mode_block_decision_witness :
    JSController.shouldBlockScript .strict
      [⟨str "obfuscation-unicode", str "Unicode Escape Obfuscation",
        fun _ => true, str "heavy escapes", .low, .obfuscation⟩] 0 = true ∧
    JSController.shouldBlockScript .moderate
      [⟨str "obfuscation-unicode", str "Unicode Escape Obfuscation",
        fun _ => true, str "heavy escapes", .low, .obfuscation⟩] 0 = false ∧
    JSController.shouldBlockScript .permissive
      [⟨str "obfuscation-unicode", str "Unicode Escape Obfuscation",
        fun _ => true, str "heavy escapes", .low, .obfuscation⟩] 0 = false := by
  have h := c8_mode_block_decision
    [⟨str "obfuscation-unicode", str "Unicode Escape Obfuscation",
      fun _ => true, str "heavy escapes", .low, .obfuscation⟩] 0 (by simp)
  refine ⟨h.1, ?_, ?_⟩
  · rw [Bool.eq_false_iff]
    intro hb
    rcases h.2.1.mp hb with ⟨p, hp, hsev⟩
    simp at hp
    rcases hsev with h1 | h1 <;> rw [hp] at h1 <;> exact absurd h1 (by decide)
  · rw [Bool.eq_false_iff]
    intro hb
    rcases h.2.2.mp hb with ⟨p, hp, hsev⟩
    simp at hp
    rw [hp] at hsev
    exact absurd hsev (by decide)

/-! ## Claim C2 -/

/-- **C2** — While `visitCount < 5` no page-complete event produces a
`BehaviorAnomaly` whatever the observed behavior; the `baselineLocked` flag
after an update equals "already locked, or the incremented visit counter has
reached the threshold 5" (so it is set exactly once and never cleared); and
any update whose incremented counter has reached the threshold changes only
the visit counter, the timestamp and the lock flag, leaving every descriptive
baseline field unchanged. -/
theorem c2_baseline_learning_lock :
    (∀ (p : WebsiteBehaviorProfile) (ob : Option PageBehaviorData) (now : Int),
      p.visitCount < WebsiteBehaviorMonitor.MIN_VISITS_FOR_BASELINE →
      (WebsiteBehaviorMonitor.analyzePageLoad p ob now).1 = none) ∧
    (∀ (p : WebsiteBehaviorProfile) (b : PageBehaviorData) (now : Int),
      (WebsiteBehaviorMonitor.updateProfile p b now).baselineLocked =
        (p.baselineLocked ||
          decide (WebsiteBehaviorMonitor.MIN_VISITS_FOR_BASELINE ≤ p.visitCount + 1))) ∧
    (∀ (p : WebsiteBehaviorProfile) (b : PageBehaviorData) (now : Int),
      WebsiteBehaviorMonitor.MIN_VISITS_FOR_BASELINE ≤ p.visitCount + 1 →
      WebsiteBehaviorMonitor.updateProfile p b now =
        { p with lastVisit := now, visitCount := p.visitCount + 1,
                 baselineLocked := true }) := by
  refine ⟨?_, ?_, ?_⟩
  · intro p ob now hlt
    cases ob with
    | none => rfl
    | some b =>
      simp only [WebsiteBehaviorMonitor.analyzePageLoad]
      rw [if_neg (by omega)]
  · intro p b now
    unfold WebsiteBehaviorMonitor.updateProfile
    by_cases h5 : WebsiteBehaviorMonitor.MIN_VISITS_FOR_BASELINE ≤ p.visitCount + 1 <;>
    cases hl : p.baselineLocked <;>
    simp [h5, hl]
  · intro p b now h5
    cases hl : p.baselineLocked <;>
    simp [WebsiteBehaviorMonitor.updateProfile, hl, h5]

/-- Witness for C2: a fresh profile (visit count 0) yields no anomaly on a
page load, and an update at visit count 4 only bumps the counters and locks
the baseline. -/
theorem c2_baseline_learning_lock_witness :
    (WebsiteBehaviorMonitor.analyzePageLoad
      (WebsiteBehaviorMonitor.freshProfile (str "example.com") 0)
      (some ⟨[], [], 0, ⟨0, 0, 0⟩, ⟨false, false, false, false⟩⟩) 1).1 = none ∧
    WebsiteBehaviorMonitor.updateProfile
      { WebsiteBehaviorMonitor.freshProfile (str "example.com") 0 with visitCount := 4 }
      ⟨[], [], 0, ⟨0, 0, 0⟩, ⟨false, false, false, false⟩⟩ 2 =
      { WebsiteBehaviorMonitor.freshProfile (str "example.com") 0 with
          lastVisit := 2, visitCount := 5, baselineLocked := true } :=
  ⟨c2_baseline_learning_lock.1 _ _ 1 (by decide),
   c2_baseline_learning_lock.2.2 _ _ 2 (by decide)⟩

/-! ## Claim C4 -/

/-- Counterexample to C4 as stated: a stored profile with only scoped host
permissions, whose extension now also holds `<all_urls>` and exhibits no other
change, produces exactly one change of riskLevel 10 — and the anomaly's
severity is `critical` (risk 10 ≥ 9), not `high` as claimed. -/
theorem c4_allurls_severity_counterexample :
    ((ExtensionScanner.scanExtension
        ⟨str "abc123", str "Ext", str "1.0.0", 0, 0, [],
         [str "https://example.com/*"], [], [], [], [], [], [], [], 30, [],
         ⟨0, 0, 0⟩⟩
        ⟨str "abc123", str "Ext", str "1.0.0", some [],
         some [str "https://example.com/*", str "<all_urls>"],
         some (str "https://clients2.google.com/service/update2/crx")⟩
        5).1.map (fun a => (a.severity, a.changes.map (fun c => c.riskLevel)))) =
      some (Severity.critical, [10]) ∧ Severity.critical ≠ Severity.high := by
  constructor
  · rfl
  · decide

/-- **C4** (amended: the severity is `critical`, not `high`) — When the stored
profile has no `<all_urls>` host permission and the current host permissions
include it, the scan produces a permission change with riskLevel 10; when no
other change fires, the anomaly holds exactly that change and its severity is
`critical` with recommendation `uninstall`. -/
theorem c4_allurls_risk_and_severity (profile : ExtensionProfile)
    (ext : ExtensionInfo) (now : Int)
    (h1 : ExtensionScanner.allUrls ∉ profile.hostPermissions)
    (h2 : ExtensionScanner.allUrls ∈ ext.hostPermissions.getD []) :
    (∃ c ∈ ExtensionScanner.scanChanges profile ext,
      c.type = .permission ∧ c.riskLevel = 10) ∧
    (ExtensionScanner.newPermissionsOf profile ext = [] →
     ¬(profile.version ≠ [] ∧ ext.version ≠ profile.version) →
     ¬(ExtensionScanner.calculateRiskScore ext > profile.riskScore + 20) →
     ((ExtensionScanner.scanExtension profile ext now).1.map
       (fun a => (a.severity, a.recommendation,
         a.changes.map (fun c => (c.type, c.riskLevel))))) =
       some (.critical, .uninstall, [(.permission, 10)])) := by
  have hmem : ExtensionScanner.allUrls ∈ ExtensionScanner.newHostsOf profile ext := by
    rw [ExtensionScanner.newHostsOf, List.mem_filter]
    exact ⟨h2, by simpa using h1⟩
  have hlen : 0 < (ExtensionScanner.newHostsOf profile ext).length :=
    List.length_pos_of_mem hmem
  have hcontains : (ExtensionScanner.newHostsOf profile ext).contains
      ExtensionScanner.allUrls = true := by
    simpa using hmem
  have hhost : ExtensionScanner.hostChangesOf profile ext =
      [⟨.permission,
        str "Can now access " ++
          str (Nat.repr (ExtensionScanner.newHostsOf profile ext).length) ++
          str " new website(s): " ++
          jsJoin (str ", ") (ExtensionScanner.newHostsOf profile ext),
        10⟩] := by
    rw [ExtensionScanner.hostChangesOf]
    rw [if_pos hlen, if_pos hcontains]
  constructor
  · have hm : (⟨.permission,
        str "Can now access " ++
          str (Nat.repr (ExtensionScanner.newHostsOf profile ext).length) ++
          str " new website(s): " ++
          jsJoin (str ", ") (ExtensionScanner.newHostsOf profile ext),
        10⟩ : ExtensionChange) ∈ ExtensionScanner.scanChanges profile ext := by
      rw [ExtensionScanner.scanChanges, hhost]
      exact List.mem_append_left _ (List.mem_append_right _
        (List.mem_singleton_self _))
    exact ⟨_, hm, rfl, rfl⟩
  · intro hp hv hr
    have hperm : ExtensionScanner.permChangesOf profile ext = [] := by
      simp [ExtensionScanner.permChangesOf, hp]
    have hver : ExtensionScanner.versionChangesOf profile ext = [] := by
      simp only [ExtensionScanner.versionChangesOf, if_neg hv]
    have hbeh : ExtensionScanner.behaviorChangesOf profile ext = [] := by
      simp only [ExtensionScanner.behaviorChangesOf, if_neg hr]
    have hchanges : ExtensionScanner.scanChanges profile ext =
        [⟨.permission,
          str "Can now access " ++
            str (Nat.repr (ExtensionScanner.newHostsOf profile ext).length) ++
            str " new website(s): " ++
            jsJoin (str ", ") (ExtensionScanner.newHostsOf profile ext),
          10⟩] := by
      rw [ExtensionScanner.scanChanges, hperm, hver, hhost, hbeh]
      simp
    simp only [ExtensionScanner.scanExtension, hchanges]
    rfl

/-- Witness for C4: a concrete scoped profile gaining `<all_urls>` with no
other change. -/
theorem c4_allurls_risk_and_severity_witness :
    ((ExtensionScanner.scanExtension
        ⟨str "ext0", str "Ext", str "2.0", 0, 0, [],
         [str "https://news.example/*"], [], [], [], [], [], [], [], 30, [],
         ⟨0, 0, 0⟩⟩
        ⟨str "ext0", str "Ext", str "2.0", some [],
         some [str "https://news.example/*", str "<all_urls>"],
         some (str "https://clients2.google.com/service/update2/crx")⟩
        7).1.map
      (fun a => (a.severity, a.recommendation,
        a.changes.map (fun c => (c.type, c.riskLevel))))) =
      some (.critical, .uninstall, [(.permission, 10)]) :=
  (c4_allurls_risk_and_severity _ _ 7 (by decide) (by decide)).2
    (by decide) (by decide) (by decide)

/-! ## Claim C5 -/

/-- Counterexample to C5 as stated: with the default allow-list
(`google.com`, `youtube.com`, `github.com`), a script from host
`google.com.evil.net` — of which no allow-list entry is a *suffix* — is
nevertheless treated as allow-listed (substring match), short-circuiting to
the negative result even though the configured pattern matches the content;
from a different host the same content is blocked. -/
theorem c5_whitelist_suffix_counterexample :
    JSController.analyzeScript
      ⟨true, .moderate, JSController.defaultWhitelist,
       [⟨str "crypto-coinhive", str "CoinHive Crypto Miner",
         fun code => jsIncludes (jsToLower code) (str "coinhive"),
         str "Detects CoinHive cryptocurrency mining script",
         .critical, .cryptomining⟩]⟩
      (str "CoinHive.Anonymous('k')") (str "http://google.com.evil.net/a.js") =
      JSController.negativeResult ∧
    (JSController.defaultWhitelist.all
      (fun d => !(jsEndsWith (str "google.com.evil.net") d))) = true ∧
    (JSController.analyzeScript
      ⟨true, .moderate, JSController.defaultWhitelist,
       [⟨str "crypto-coinhive", str "CoinHive Crypto Miner",
         fun code => jsIncludes (jsToLower code) (str "coinhive"),
         str "Detects CoinHive cryptocurrency mining script",
         .critical, .cryptomining⟩]⟩
      (str "CoinHive.Anonymous('k')") (str "http://innocent.net/a.js")).shouldBlock =
      true := by
  refine ⟨rfl, by decide, rfl⟩

/-- **C5** (amended: the allow-list check is a *substring* match on the
hostname, not a suffix match) — A script source is treated as allow-listed
exactly when its URL parses and some allow-list entry occurs as a substring of
the hostname; when enabled and allow-listed, `analyzeScript` short-circuits to
the negative result with no pattern matching; when enabled and not
allow-listed, the full pattern analysis is performed. -/
theorem c5_whitelist_substring_shortcircuit (cfg : JSControllerConfig)
    (content url : JStr) :
    (JSController.isWhitelisted cfg url = true ↔
      ∃ u, parseURL url = some u ∧ ∃ d ∈ cfg.whitelist, jsIncludes u.host d = true) ∧
    (cfg.enabled = true → JSController.isWhitelisted cfg url = true →
      JSController.analyzeScript cfg content url = JSController.negativeResult) ∧
    (cfg.enabled = true → JSController.isWhitelisted cfg url = false →
      JSController.analyzeScript cfg content url =
        (let matched := cfg.patterns.filter (fun p => p.test content)
         if matched.length = 0 then JSController.negativeResult
         else ⟨true, matched,
               JSController.shouldBlockScript cfg.mode matched
                 (JSController.calculateConfidence matched),
               JSController.calculateConfidence matched⟩)) := by
  refine ⟨?_, ?_, ?_⟩
  · unfold JSController.isWhitelisted
    cases h : parseURL url with
    | none => simp
    | some u => simp [List.any_eq_true]
  · intro he hw
    simp [JSController.analyzeScript, he, hw]
  · intro he hw
    simp [JSController.analyzeScript, he, hw]

/-- Witness for C5: a whitelisted host short-circuits, a non-whitelisted one
does not. -/
theorem c5_whitelist_substring_shortcircuit_witness :
    JSController.analyzeScript
      ⟨true, .strict, JSController.defaultWhitelist, []⟩
      (str "eval(x)") (str "https://www.google.com/main.js") =
      JSController.negativeResult :=
  (c5_whitelist_substring_shortcircuit _ _ _).2.1 rfl (by decide)

/-! ## Equivalence of the `ℚ` comparisons with their `ℕ` evaluation forms -/

/-- For `m ≤ n`, the ratio test `m / n > 0.8` over `ℚ` is the integer test
`4 n < 5 m`. -/
theorem ratioDiv_gt_iff (m n : ℕ) (hmn : m ≤ n) :
    ((m : ℚ) / (n : ℚ) > 0.8) ↔ 4 * n < 5 * m := by
  rcases Nat.eq_zero_or_pos n with hn | hn
  · subst hn
    interval_cases m
    norm_num
  · have hn' : (0 : ℚ) < (n : ℚ) := by exact_mod_cast hn
    have h08 : (0.8 : ℚ) = 4 / 5 := by norm_num
    rw [gt_iff_lt, h08, div_lt_div_iff₀ (by norm_num) hn']
    constructor
    · intro h
      have h' : ((4 * n : ℕ) : ℚ) < ((5 * m : ℕ) : ℚ) := by push_cast; linarith
      exact_mod_cast h'
    · intro h
      have h' : ((4 * n : ℕ) : ℚ) < ((5 * m : ℕ) : ℚ) := by exact_mod_cast h
      push_cast at h'
      linarith

/-- The lookalike match counter never exceeds the brand length. -/
theorem lookalikeMatchCount_le (domain brand : JStr) :
    lookalikeMatchCount domain brand ≤ brand.length := by
  unfold lookalikeMatchCount
  calc (List.filter _ (domain.zip brand)).length
      ≤ (domain.zip brand).length := List.length_filter_le _ _
    _ = Nat.min domain.length brand.length := List.length_zip _ _
    _ ≤ brand.length := Nat.min_le_right _ _

/-- `hasLookalikeChars` equals its integer evaluation form. -/
theorem hasLookalikeChars_eq_N (domain brand : JStr) :
    hasLookalikeChars domain brand = hasLookalikeCharsN domain brand := by
  unfold hasLookalikeChars hasLookalikeCharsN
  by_cases habs : (Int.natAbs ((domain.length : Int) - (brand.length : Int))) ≤ 2
  · rw [if_neg (by omega)]
    rw [decide_eq_true habs, Bool.true_and]
    exact decide_eq_decide.mpr (ratioDiv_gt_iff _ _ (lookalikeMatchCount_le _ _))
  · rw [if_pos (by omega)]
    rw [decide_eq_false habs, Bool.false_and]

/-- `jsIncludes` with an empty needle is always true. -/
theorem jsIncludes_nil (hay : JStr) : jsIncludes hay [] = true := by
  cases hay <;> simp [jsIncludes, List.isPrefixOf]

/-- For `0 < M`, the similarity test `1 - d / M > 0.8` over `ℚ` is the integer
test `5 d < M`. -/
theorem oneSubDiv_gt_iff (d M : ℕ) (hM : 0 < M) :
    ((1 : ℚ) - (d : ℚ) / (M : ℚ) > 0.8) ↔ 5 * d < M := by
  have hM' : (0 : ℚ) < (M : ℚ) := by exact_mod_cast hM
  rw [gt_iff_lt, lt_sub_comm]
  have h02 : (1 : ℚ) - 0.8 = 1 / 5 := by norm_num
  rw [h02, div_lt_div_iff₀ hM' (by norm_num)]
  constructor
  · intro h
    have h' : ((d : ℚ) * 5) < 1 * M := h
    have h'' : ((5 * d : ℕ) : ℚ) < ((M : ℕ) : ℚ) := by push_cast; linarith
    exact_mod_cast h''
  · intro h
    have h' : ((5 * d : ℕ) : ℚ) < ((M : ℕ) : ℚ) := by exact_mod_cast h
    push_cast at h'
    linarith

/-- `typosquatForBrand` equals its integer evaluation form. -/
theorem typosquatForBrand_eq_N (domain brand : JStr) :
    typosquatForBrand domain brand = typosquatForBrandN domain brand := by
  by_cases hinc : jsIncludes domain brand = true
  · simp only [typosquatForBrand, typosquatForBrandN, if_pos hinc]
  · have hb : brand ≠ [] := by
      intro h
      subst h
      exact hinc (jsIncludes_nil domain)
    have hM : 0 < Nat.max domain.length brand.length :=
      lt_of_lt_of_le (List.length_pos_of_ne_nil hb) (Nat.le_max_right _ _)
    simp only [typosquatForBrand, typosquatForBrandN, if_neg hinc]
    have hcond : ((1 : ℚ) -
        (levenshteinDistance domain brand : ℚ) /
          ((Nat.max domain.length brand.length : Nat) : ℚ) > 0.8 ∧
        levenshteinDistance domain brand ≤ 2) ↔
        (5 * levenshteinDistance domain brand < Nat.max domain.length brand.length ∧
         levenshteinDistance domain brand ≤ 2) :=
      and_congr_left' (oneSubDiv_gt_iff _ _ hM)
    rw [if_congr hcond rfl rfl, hasLookalikeChars_eq_N]

/-- `checkTyposquatting` equals its integer evaluation form. -/
theorem checkTyposquatting_eq_N (hostname : JStr) :
    checkTyposquatting hostname = checkTyposquattingN hostname := by
  unfold checkTyposquatting checkTyposquattingN
  exact List.flatMap_congr (fun b _ => typosquatForBrand_eq_N _ b)

/-! ## Claim C6 -/

/-- **C6** — Typosquatting examples: `faceb00k.com` yields exactly the
critical lookalike-substitution indicator for "facebook"; `facebok.com`
(Levenshtein distance 1) yields exactly the high similar-to indicator; and
`www.facebook.com` yields no typosquatting indicator at all. -/
theorem c6_typosquatting_examples :
    checkTyposquatting (str "faceb00k.com") =
      [⟨.typosquatting, .critical,
        str "Uses lookalike characters to mimic facebook", str "faceb00k"⟩] ∧
    checkTyposquatting (str "facebok.com") =
      [⟨.typosquatting, .high,
        str "Similar to facebook (possible typo)", str "facebok"⟩] ∧
    levenshteinDistance (str "facebok") (str "facebook") = 1 ∧
    checkTyposquatting (str "www.facebook.com") = [] := by
  rw [checkTyposquatting_eq_N, checkTyposquatting_eq_N, checkTyposquatting_eq_N]
  set_option maxRecDepth 4096 in decide

/-! ## Claim C10 -/

/-- Counterexample to C10 as stated: the hostname `login.facebook.com`
satisfies the claim's premises (its domain part `login.facebook` strictly
contains the protected brand "facebook" and is neither the brand nor
`www.facebook`), yet `analyze` on a fresh analyzer returns verdict `safe`,
because the built-in allow-list short-circuits before the typosquatting check
ever runs. -/
theorem c10_brand_substring_counterexample :
    jsIncludes (domainOf (str "login.facebook.com")) (str "facebook") = true ∧
    domainOf (str "login.facebook.com") ≠ str "facebook" ∧
    domainOf (str "login.facebook.com") ≠ str "www." ++ str "facebook" ∧
    (analyzeURL (freshAnalyzer .medium) (str "http://login.facebook.com") 0 0).1.verdict =
      Verdict.safe ∧
    Verdict.safe ≠ Verdict.malicious := by
  refine ⟨by decide, by decide, by decide, ?_, by decide⟩
  rfl

/-- **C10** (amended: the critical impersonation indicator is emitted by the
typosquatting check, and any critical indicator forces the verdict computation
`determineVerdict` to `malicious`; the full `analyze` pipeline can still
return `safe` for such hostnames when the built-in allow-list short-circuits
first) — For every hostname whose domain part strictly contains a protected
brand while differing from the brand and from `www.<brand>`, the typosquatting
check emits the critical "Impersonates" indicator, and `determineVerdict`
returns `malicious` whenever any critical indicator is present, regardless of
the score. -/
theorem c10_brand_substring_impersonation :
    (∀ (hostname brand : JStr), brand ∈ PROTECTED_BRANDS →
      jsIncludes (domainOf hostname) brand = true →
      domainOf hostname ≠ brand →
      domainOf hostname ≠ str "www." ++ brand →
      impersonationIndicator brand (domainOf hostname) ∈ checkTyposquatting hostname) ∧
    (∀ (cfg : URLAnalyzerConfig) (score : ℝ) (indicators : List ThreatIndicator),
      (indicators.any (fun i => i.severity = .critical)) = true →
      determineVerdict cfg score indicators = .malicious) := by
  constructor
  · intro hostname brand hbrand hinc hne hwww
    unfold domainOf at hinc hne hwww
    unfold checkTyposquatting impersonationIndicator
    rw [List.mem_flatMap]
    refine ⟨brand, hbrand, ?_⟩
    unfold typosquatForBrand
    rw [if_pos hinc, if_neg (by push_neg; exact ⟨hne, hwww⟩)]
    exact List.mem_singleton_self _
  · intro cfg score indicators hcrit
    unfold determineVerdict
    rw [if_pos hcrit]

/-- Witness for C10: `facebook-login.com` yields the critical impersonation
indicator, and a singleton critical indicator list forces `malicious`. -/
theorem c10_brand_substring_impersonation_witness :
    impersonationIndicator (str "facebook") (domainOf (str "facebook-login.com")) ∈
      checkTyposquatting (str "facebook-login.com") ∧
    determineVerdict initialConfig 0
      [⟨.typosquatting, .critical, str "Impersonates facebook", str "facebook-login"⟩] =
      .malicious :=
  ⟨c10_brand_substring_impersonation.1 (str "facebook-login.com") (str "facebook")
    (by decide) (by decide) (by decide) (by decide),
   c10_brand_substring_impersonation.2 initialConfig 0 _ (by decide)⟩

/-! ## Case folding and the URL parser -/

/-- `lowerChar` preserves scheme-character membership. -/
theorem isSchemeChar_lowerChar (c : Nat) : isSchemeChar (lowerChar c) = isSchemeChar c := by
  unfold lowerChar isSchemeChar
  split <;> first | rfl | (rw [decide_eq_decide]; omega)

/-- `lowerChar` preserves authority-character membership. -/
theorem isAuthChar_lowerChar (c : Nat) : isAuthChar (lowerChar c) = isAuthChar c := by
  unfold lowerChar isAuthChar
  split <;> first | rfl | (rw [decide_eq_decide]; omega)

/-- `lowerChar` preserves "not a colon". -/
theorem isNotColon_lowerChar (c : Nat) : isNotColon (lowerChar c) = isNotColon c := by
  unfold lowerChar isNotColon
  split <;> first | rfl | (rw [decide_eq_decide]; omega)

/-- `lowerChar` preserves digits. -/
theorem isDigitChar_lowerChar (c : Nat) : isDigitChar (lowerChar c) = isDigitChar c := by
  unfold lowerChar isDigitChar
  split <;> first | rfl | (rw [decide_eq_decide]; omega)

/-- `lowerChar` equations for target characters below 65 (such as `:` `/`
`?`). -/
theorem lowerChar_eq_low_iff (c k : Nat) (hk : k < 65) : lowerChar c = k ↔ c = k := by
  unfold lowerChar
  split <;> omega

/-- `lowerChar` is idempotent. -/
theorem lowerChar_idem (c : Nat) : lowerChar (lowerChar c) = lowerChar c := by
  by_cases h : 65 ≤ c ∧ c ≤ 90
  · have h1 : lowerChar c = c + 32 := by unfold lowerChar; exact if_pos h
    rw [h1]
    unfold lowerChar
    rw [if_neg (by omega)]
  · have h1 : lowerChar c = c := by unfold lowerChar; exact if_neg h
    rw [h1]
    exact h1

/-- `jsToLower` is idempotent. -/
theorem jsToLower_idem (s : JStr) : jsToLower (jsToLower s) = jsToLower s := by
  unfold jsToLower
  rw [List.map_map]
  exact List.map_congr_left (fun c _ => lowerChar_idem c)

/-- `takeWhile` commutes with `jsToLower` for predicates invariant under
`lowerChar`. -/
theorem takeWhile_jsToLower (p : Nat → Bool) (hp : ∀ c, p (lowerChar c) = p c)
    (l : JStr) : (jsToLower l).takeWhile p = jsToLower (l.takeWhile p) := by
  simp only [jsToLower]
  induction l with
  | nil => rfl
  | cons c t ih =>
    simp only [List.map_cons, List.takeWhile_cons, hp c]
    cases h : p c <;> simp [h, ih]

/-- `dropWhile` commutes with `jsToLower` for predicates invariant under
`lowerChar`. -/
theorem dropWhile_jsToLower (p : Nat → Bool) (hp : ∀ c, p (lowerChar c) = p c)
    (l : JStr) : (jsToLower l).dropWhile p = jsToLower (l.dropWhile p) := by
  simp only [jsToLower]
  induction l with
  | nil => rfl
  | cons c t ih =>
    simp only [List.map_cons, List.dropWhile_cons, hp c]
    cases h : p c <;> simp [h, ih]

/-- `all` is invariant under `jsToLower` for predicates invariant under
`lowerChar`. -/
theorem all_jsToLower (p : Nat → Bool) (hp : ∀ c, p (lowerChar c) = p c)
    (l : JStr) : (jsToLower l).all p = l.all p := by
  simp only [jsToLower]
  induction l with
  | nil => rfl
  | cons c t ih => simp only [List.map_cons, List.all_cons, hp c, ih]

/-- `tail` commutes with `jsToLower`. -/
theorem tail_jsToLower (l : JStr) : (jsToLower l).tail = jsToLower l.tail := by
  cases l <;> rfl

/-- A string that fails to parse as a URL still fails after lower-casing. -/
theorem parseChars_lower_none (l : JStr) (h : parseChars l = none) :
    parseChars (jsToLower l) = none := by
  unfold parseChars at h ⊢
  rw [takeWhile_jsToLower isSchemeChar isSchemeChar_lowerChar,
      dropWhile_jsToLower isSchemeChar isSchemeChar_lowerChar]
  by_cases hs : l.takeWhile isSchemeChar = []
  · rw [if_pos (by rw [hs]; rfl)]
  · rw [if_neg (by simpa [jsToLower] using hs)]
    rw [if_neg hs] at h
    rcases hd : l.dropWhile isSchemeChar with _ | ⟨c1, rest1⟩
    · rfl
    rcases rest1 with _ | ⟨c2, rest2⟩
    · rfl
    rcases rest2 with _ | ⟨c3, rest3⟩
    · rfl
    rw [hd] at h
    simp only [] at h
    simp only [jsToLower, List.map_cons]
    by_cases hc : c1 = 58 ∧ c2 = 47 ∧ c3 = 47
    · rw [if_pos ⟨(lowerChar_eq_low_iff c1 58 (by omega)).mpr hc.1,
            (lowerChar_eq_low_iff c2 47 (by omega)).mpr hc.2.1,
            (lowerChar_eq_low_iff c3 47 (by omega)).mpr hc.2.2⟩]
      rw [if_pos hc] at h
      rw [show (List.map lowerChar rest3 : JStr) = jsToLower rest3 from rfl]
      rw [takeWhile_jsToLower isAuthChar isAuthChar_lowerChar,
          dropWhile_jsToLower isAuthChar isAuthChar_lowerChar]
      by_cases ha : rest3.takeWhile isAuthChar = []
      · rw [if_pos (by rw [ha]; rfl)]
      · rw [if_neg (by simpa [jsToLower] using ha)]
        rw [if_neg ha] at h
        rw [takeWhile_jsToLower isNotColon isNotColon_lowerChar,
            dropWhile_jsToLower isNotColon isNotColon_lowerChar]
        by_cases hh : (rest3.takeWhile isAuthChar).takeWhile isNotColon = []
        · rw [if_pos (by rw [hh]; rfl)]
        · rw [if_neg (by simpa [jsToLower] using hh)]
          rw [if_neg hh] at h
          rw [tail_jsToLower, all_jsToLower isDigitChar isDigitChar_lowerChar]
          by_cases hdg : (((rest3.takeWhile isAuthChar).dropWhile isNotColon).tail).all
              isDigitChar = true
          · rw [if_pos hdg] at h
            exact absurd h (by simp)
          · rw [if_neg hdg]
    · rw [if_neg (by
        intro hcon
        exact hc ⟨(lowerChar_eq_low_iff c1 58 (by omega)).mp hcon.1,
          (lowerChar_eq_low_iff c2 47 (by omega)).mp hcon.2.1,
          (lowerChar_eq_low_iff c3 47 (by omega)).mp hcon.2.2⟩)]

/-! ## Path lemmas for `analyzeURL` -/

/-- A cache hit returns the cached result and only bumps the hit counter. -/
theorem analyzeURL_hit (s : AnalyzerState) (url : JStr) (now : Int) (e : ℚ)
    (hen : s.config.cacheEnabled = true) (r : URLAnalysisResult)
    (hhit : (getCached s.cache s.config.cacheTTL url now).1 = some r) :
    analyzeURL s url now e =
      (r, bumpHits s (getCached s.cache s.config.cacheTTL url now).2) := by
  simp only [analyzeURL, hen, hhit, if_true]

/-- On a cache miss with the quick allow-list check failing, `analyzeURL`
returns the full heuristic result. -/
theorem analyzeURL_miss_full (s : AnalyzerState) (url : JStr) (now : Int) (e : ℚ)
    (hen : s.config.cacheEnabled = true)
    (hmiss : (getCached s.cache s.config.cacheTTL url now).1 = none)
    (hq : quickSafetyCheck (normalizeURL url) = false) :
    (analyzeURL s url now e).1 =
      ⟨normalizeURL url,
       determineVerdict s.config
         (adjustScoreBySensitivity s.config
           (calculateThreatScore (analyzeURLHeuristics (normalizeURL url))))
         (analyzeURLHeuristics (normalizeURL url)),
       adjustScoreBySensitivity s.config
         (calculateThreatScore (analyzeURLHeuristics (normalizeURL url))),
       generateReason
         (determineVerdict s.config
           (adjustScoreBySensitivity s.config
             (calculateThreatScore (analyzeURLHeuristics (normalizeURL url))))
           (analyzeURLHeuristics (normalizeURL url)))
         (analyzeURLHeuristics (normalizeURL url)),
       analyzeURLHeuristics (normalizeURL url), now⟩ := by
  simp only [analyzeURL, hen, hmiss, hq, if_true, if_false, Bool.false_eq_true]
  rfl

/-- On a cache miss with the quick allow-list check passing, `analyzeURL`
returns the fixed safe result. -/
theorem analyzeURL_miss_quick (s : AnalyzerState) (url : JStr) (now : Int) (e : ℚ)
    (hen : s.config.cacheEnabled = true)
    (hmiss : (getCached s.cache s.config.cacheTTL url now).1 = none)
    (hq : quickSafetyCheck (normalizeURL url) = true) :
    (analyzeURL s url now e).1 =
      createSafeResult (normalizeURL url) (str "Passed quick safety checks") now := by
  simp only [analyzeURL, hen, hmiss, hq, if_true]

/-- `updateStats` never touches the cache counters. -/
theorem updateStats_cache_counters (st : AnalyzerStats) (v : Verdict) (e : ℚ) :
    (updateStats st v e).cacheHits = st.cacheHits ∧
    (updateStats st v e).cacheMisses = st.cacheMisses := ⟨rfl, rfl⟩

/-- On a cache miss, whatever branch produced the result, the state comes out
as: miss counter bumped, stats updated for the produced verdict, and the
result cached under the normalized URL. -/
theorem analyzeURL_miss_state (s : AnalyzerState) (url : JStr) (now : Int) (e : ℚ)
    (hen : s.config.cacheEnabled = true)
    (hmiss : (getCached s.cache s.config.cacheTTL url now).1 = none) :
    (analyzeURL s url now e).2 =
      cacheStep
        (applyStats (bumpMisses s (getCached s.cache s.config.cacheTTL url now).2)
          (analyzeURL s url now e).1.verdict e)
        (normalizeURL url) (analyzeURL s url now e).1 now ∧
    (analyzeURL s url now e).1.url = normalizeURL url ∧
    (analyzeURL s url now e).1.timestamp = now := by
  by_cases hq : quickSafetyCheck (normalizeURL url) = true
  · have h1 := analyzeURL_miss_quick s url now e hen hmiss hq
    refine ⟨?_, by rw [h1]; rfl, by rw [h1]; rfl⟩
    rw [h1]
    simp only [analyzeURL, hen, hmiss, hq, if_true]
  · rw [Bool.not_eq_true] at hq
    have h1 := analyzeURL_miss_full s url now e hen hmiss hq
    refine ⟨?_, by rw [h1], by rw [h1]⟩
    rw [h1]
    simp only [analyzeURL, hen, hmiss, hq, if_true, if_false, Bool.false_eq_true]
    rfl

/-- On a cache miss the cache counters move by exactly one miss, and the
configuration is unchanged. -/
theorem analyzeURL_miss_stats (s : AnalyzerState) (url : JStr) (now : Int) (e : ℚ)
    (hen : s.config.cacheEnabled = true)
    (hmiss : (getCached s.cache s.config.cacheTTL url now).1 = none) :
    ((analyzeURL s url now e).2).stats.cacheHits = s.stats.cacheHits ∧
    ((analyzeURL s url now e).2).stats.cacheMisses = s.stats.cacheMisses + 1 ∧
    ((analyzeURL s url now e).2).cache =
      setCached (getCached s.cache s.config.cacheTTL url now).2 (normalizeURL url)
        (analyzeURL s url now e).1 now ∧
    ((analyzeURL s url now e).2).config = s.config := by
  obtain ⟨h2, -, -⟩ := analyzeURL_miss_state s url now e hen hmiss
  rw [h2]
  unfold cacheStep applyStats bumpMisses
  rw [if_pos (by exact hen)]
  exact ⟨rfl, rfl, rfl, rfl⟩

/-- The threat score of the single malformed-URL indicator is at least the
default block threshold: `0.8^0.8 ≥ 0.8 ≥ 0.7`. -/
theorem malformed_score_ge (x : JStr) :
    (0.7 : ℝ) ≤ calculateThreatScore [malformedIndicator x] := by
  simp only [calculateThreatScore, malformedIndicator]
  rw [if_neg (by simp)]
  have h1 : (List.map (fun i => severityWeight i.severity)
      ([⟨.suspicious_path, .high, str "Malformed or invalid URL", x⟩] :
        List ThreatIndicator)).sum = 0.8 := by
    simp [severityWeight]
  rw [h1]
  have h2 : (min ((0.8 : ℝ) /
      ((Nat.max (List.length [(⟨.suspicious_path, .high,
        str "Malformed or invalid URL", x⟩ : ThreatIndicator)]) 1 : Nat) : ℝ)) 1) =
      (0.8 : ℝ) := by
    norm_num
  rw [h2]
  have h3 : ((0.8 : ℝ)) ^ (1 : ℝ) ≤ (0.8 : ℝ) ^ (0.8 : ℝ) :=
    Real.rpow_le_rpow_of_exponent_ge (by norm_num) (by norm_num) (by norm_num)
  rw [Real.rpow_one] at h3
  linarith

/-! ## Claim C1 -/

/-- Counterexample to C1 as stated: the non-URL input `"not a url"` produces
the single high-severity malformed-URL indicator, but the default analyzer's
verdict is `malicious` (score `0.8^0.8 ≈ 0.84` is at or above the default
block threshold 0.7), not `suspicious`. -/
theorem c1_malformed_verdict_counterexample :
    parseURL (str "not a url") = none ∧
    (analyzeURL (freshAnalyzer .medium) (str "not a url") 0 0).1.indicators =
      [malformedIndicator (str "not a url")] ∧
    (analyzeURL (freshAnalyzer .medium) (str "not a url") 0 0).1.verdict =
      Verdict.malicious ∧
    Verdict.malicious ≠ Verdict.suspicious := by
  have hparse : parseURL (str "not a url") = none := by decide
  have hnorm : normalizeURL (str "not a url") = str "not a url" := by decide
  have hquick : quickSafetyCheck (normalizeURL (str "not a url")) = false := by
    rw [hnorm]; decide
  have hheur : analyzeURLHeuristics (normalizeURL (str "not a url")) =
      [malformedIndicator (str "not a url")] := by
    rw [hnorm]
    decide
  have hfull := analyzeURL_miss_full (freshAnalyzer .medium) (str "not a url") 0 0
    rfl rfl hquick
  refine ⟨hparse, ?_, ?_, by decide⟩
  · rw [hfull]
    exact hheur
  · rw [hfull]
    dsimp only
    rw [hheur]
    have hadj : adjustScoreBySensitivity (freshAnalyzer .medium).config
        (calculateThreatScore [malformedIndicator (str "not a url")]) =
        calculateThreatScore [malformedIndicator (str "not a url")] := rfl
    unfold determineVerdict
    rw [if_neg (by simp [malformedIndicator])]
    rw [if_neg (by norm_num [malformedIndicator])]
    rw [if_pos (by
      show (0.7 : ℝ) ≤ _
      rw [hadj]
      exact malformed_score_ge _)]

/-- **C1** (amended: the verdict is `malicious`, not `suspicious`) — For every
input string that does not parse as a URL, the default analyzer's result
carries exactly one indicator, the high-severity malformed-URL indicator, and
the overall verdict is `malicious` (the single high-severity indicator scores
`0.8^0.8 ≥ 0.7`, the default block threshold). -/
theorem c1_malformed_url_result (u : JStr) (hparse : parseURL u = none)
    (now : Int) (e : ℚ) :
    (analyzeURL (freshAnalyzer .medium) u now e).1.indicators =
      [malformedIndicator (jsToLower u)] ∧
    (malformedIndicator (jsToLower u)).severity = .high ∧
    (analyzeURL (freshAnalyzer .medium) u now e).1.verdict = Verdict.malicious := by
  have hlow : parseURL (jsToLower u) = none := parseChars_lower_none u hparse
  have hnorm : normalizeURL u = jsToLower u := by
    simp only [normalizeURL, parseURL] at hparse ⊢
    rw [hparse]
  have hquick : quickSafetyCheck (normalizeURL u) = false := by
    rw [hnorm]
    simp only [quickSafetyCheck, parseURL] at hlow ⊢
    rw [hlow]
  have hheur : analyzeURLHeuristics (normalizeURL u) =
      [malformedIndicator (jsToLower u)] := by
    rw [hnorm]
    simp only [analyzeURLHeuristics, parseURL] at hlow ⊢
    rw [hlow]
    rfl
  have hfull := analyzeURL_miss_full (freshAnalyzer .medium) u now e rfl rfl hquick
  refine ⟨?_, rfl, ?_⟩
  · rw [hfull]
    exact hheur
  · rw [hfull]
    dsimp only
    rw [hheur]
    have hadj : adjustScoreBySensitivity (freshAnalyzer .medium).config
        (calculateThreatScore [malformedIndicator (jsToLower u)]) =
        calculateThreatScore [malformedIndicator (jsToLower u)] := rfl
    unfold determineVerdict
    rw [if_neg (by simp [malformedIndicator])]
    rw [if_neg (by norm_num [malformedIndicator])]
    rw [if_pos (by
      show (0.7 : ℝ) ≤ _
      rw [hadj]
      exact malformed_score_ge _)]

/-- Witness for C1: the concrete non-URL input `"notaurl"`. -/
theorem c1_malformed_url_result_witness :
    (analyzeURL (freshAnalyzer .medium) (str "notaurl") 3 0).1.indicators =
      [malformedIndicator (jsToLower (str "notaurl"))] ∧
    (malformedIndicator (jsToLower (str "notaurl"))).severity = .high ∧
    (analyzeURL (freshAnalyzer .medium) (str "notaurl") 3 0).1.verdict =
      Verdict.malicious :=
  c1_malformed_url_result (str "notaurl") (by decide) 3 0

/-! ## Claim C3 -/

/-- Counterexample to C3 as stated: the cache is *written* under the
normalized URL but *looked up* under the raw input string, so two calls with
the raw (non-normalized) input `"http://example.com/"` within the TTL both
miss — after the second call the analyzer has two cache misses and zero cache
hits, while the claim says the second call increments only the cache-hit
counter. -/
theorem c3_cache_raw_lookup_counterexample :
    normalizeURL (str "http://example.com/") ≠ str "http://example.com/" ∧
    ((analyzeURL ((analyzeURL (freshAnalyzer .medium)
        (str "http://example.com/") 0 0).2)
      (str "http://example.com/") 1000 0).2).stats.cacheHits = 0 ∧
    ((analyzeURL ((analyzeURL (freshAnalyzer .medium)
        (str "http://example.com/") 0 0).2)
      (str "http://example.com/") 1000 0).2).stats.cacheMisses = 2 := by
  have hnorm : normalizeURL (str "http://example.com/") = str "http://example.com" := by
    decide
  obtain ⟨hh1, hm1, hc1, hcfg1⟩ := analyzeURL_miss_stats (freshAnalyzer .medium)
    (str "http://example.com/") 0 0 rfl rfl
  have hcache1 : ((analyzeURL (freshAnalyzer .medium)
      (str "http://example.com/") 0 0).2).cache =
      [(str "http://example.com",
        ⟨(analyzeURL (freshAnalyzer .medium) (str "http://example.com/") 0 0).1, 0⟩)] := by
    rw [hc1, hnorm]
    rfl
  have hen2 : ((analyzeURL (freshAnalyzer .medium)
      (str "http://example.com/") 0 0).2).config.cacheEnabled = true := by
    rw [hcfg1]
    rfl
  have hmiss2 : (getCached
      ((analyzeURL (freshAnalyzer .medium) (str "http://example.com/") 0 0).2).cache
      ((analyzeURL (freshAnalyzer .medium) (str "http://example.com/") 0 0).2).config.cacheTTL
      (str "http://example.com/") 1000).1 = none := by
    rw [hcache1, hcfg1]
    rfl
  obtain ⟨hh2, hm2, -, -⟩ := analyzeURL_miss_stats _
    (str "http://example.com/") 1000 0 hen2 hmiss2
  refine ⟨by decide, ?_, ?_⟩
  · rw [hh2, hh1]
    rfl
  · rw [hm2, hm1]
    rfl

/-- **C3** (amended: the cache lookup is by the *raw* URL string while the
store is by the normalized URL, so the second call is a guaranteed hit only
when the input already equals its normalization) — For every URL string equal
to its normalized form, calling `analyze` twice on a fresh analyzer within the
cache TTL returns the identical result object; the second call leaves the
cache untouched and changes the statistics only by incrementing the cache-hit
counter. -/
theorem c3_cache_idempotent_normalized (u : JStr) (hn : normalizeURL u = u)
    (t1 t2 : Int) (e1 e2 : ℚ) (httl : t2 - t1 ≤ 3600000) :
    (analyzeURL ((analyzeURL (freshAnalyzer .medium) u t1 e1).2) u t2 e2).1 =
      (analyzeURL (freshAnalyzer .medium) u t1 e1).1 ∧
    ((analyzeURL ((analyzeURL (freshAnalyzer .medium) u t1 e1).2) u t2 e2).2).stats =
      { ((analyzeURL (freshAnalyzer .medium) u t1 e1).2).stats with
          cacheHits :=
            ((analyzeURL (freshAnalyzer .medium) u t1 e1).2).stats.cacheHits + 1 } ∧
    ((analyzeURL ((analyzeURL (freshAnalyzer .medium) u t1 e1).2) u t2 e2).2).cache =
      ((analyzeURL (freshAnalyzer .medium) u t1 e1).2).cache := by
  obtain ⟨hh1, hm1, hc1, hcfg1⟩ := analyzeURL_miss_stats (freshAnalyzer .medium)
    u t1 e1 rfl rfl
  have hcache1 : ((analyzeURL (freshAnalyzer .medium) u t1 e1).2).cache =
      [(u, ⟨(analyzeURL (freshAnalyzer .medium) u t1 e1).1, t1⟩)] := by
    rw [hc1, hn]
    rfl
  have hen2 : ((analyzeURL (freshAnalyzer .medium) u t1 e1).2).config.cacheEnabled =
      true := by
    rw [hcfg1]
    rfl
  have hgc : getCached
      ((analyzeURL (freshAnalyzer .medium) u t1 e1).2).cache
      ((analyzeURL (freshAnalyzer .medium) u t1 e1).2).config.cacheTTL u t2 =
      (some (analyzeURL (freshAnalyzer .medium) u t1 e1).1,
       ((analyzeURL (freshAnalyzer .medium) u t1 e1).2).cache) := by
    rw [hcache1, hcfg1]
    simp only [getCached, assocFind, if_pos]
    rw [if_neg (by
      show ¬(t2 - t1 > (3600000 : Int))
      omega)]
  have hhit := analyzeURL_hit ((analyzeURL (freshAnalyzer .medium) u t1 e1).2)
    u t2 e2 hen2 (analyzeURL (freshAnalyzer .medium) u t1 e1).1 (by rw [hgc])
  rw [hhit, hgc]
  exact ⟨rfl, rfl, rfl⟩

/-- Witness for C3: the already-normalized URL `http://example.com` analyzed
twice 1000 ms apart. -/
theorem c3_cache_idempotent_normalized_witness :
    (analyzeURL ((analyzeURL (freshAnalyzer .medium)
        (str "http://example.com") 0 0).2) (str "http://example.com") 1000 0).1 =
      (analyzeURL (freshAnalyzer .medium) (str "http://example.com") 0 0).1 :=
  (c3_cache_idempotent_normalized (str "http://example.com") (by decide)
    0 1000 0 0 (by decide)).1
/-! ## Generic list lemmas for the URL round-trip -/

theorem takeWhile_append_all {p : Nat → Bool} :
    ∀ (a b : JStr), (∀ c ∈ a, p c = true) →
      (a ++ b).takeWhile p = a ++ b.takeWhile p
  | [], _, _ => rfl
  | c :: a, b, h => by
    simp only [List.cons_append, List.takeWhile_cons,
      h c (List.mem_cons_self c a), if_true]
    rw [takeWhile_append_all a b (fun d hd => h d (List.mem_cons_of_mem _ hd))]

theorem dropWhile_append_all {p : Nat → Bool} :
    ∀ (a b : JStr), (∀ c ∈ a, p c = true) →
      (a ++ b).dropWhile p = b.dropWhile p
  | [], _, _ => rfl
  | c :: a, b, h => by
    simp only [List.cons_append, List.dropWhile_cons,
      h c (List.mem_cons_self c a), if_true]
    exact dropWhile_append_all a b (fun d hd => h d (List.mem_cons_of_mem _ hd))

theorem takeWhile_stop {p : Nat → Bool} (c : Nat) (b : JStr) (h : p c = false) :
    (c :: b).takeWhile p = [] := by
  simp [List.takeWhile_cons, h]

theorem dropWhile_stop {p : Nat → Bool} (c : Nat) (b : JStr) (h : p c = false) :
    (c :: b).dropWhile p = c :: b := by
  simp [List.dropWhile_cons, h]

theorem dropWhile_head_false {p : Nat → Bool} :
    ∀ (l : JStr) (c : Nat) (t : JStr), l.dropWhile p = c :: t → p c = false
  | [], c, t, h => by simp at h
  | a :: l, c, t, h => by
    by_cases ha : p a = true
    · rw [List.dropWhile_cons, if_pos ha] at h
      exact dropWhile_head_false l c t h
    · rw [List.dropWhile_cons, if_neg ha] at h
      cases h
      exact Bool.eq_false_iff.mpr (fun hh => ha hh)

/-! ## Lemmas about the split model -/

theorem isPrefixOf_cons_neq (s0 c : Nat) (sep2 t : JStr) (h : c ≠ s0) :
    (s0 :: sep2).isPrefixOf (c :: t) = false := by
  have hb : (s0 == c) = false := beq_eq_false_iff_ne.mpr (fun heq => h heq.symm)
  simp [List.isPrefixOf, hb]

theorem splitGo_succ (sep : JStr) (f : Nat) (rest : JStr) :
    splitGo sep (f + 1) rest =
      if sep ≠ [] ∧ sep.isPrefixOf rest = true then
        [] :: splitGo sep f (rest.drop sep.length)
      else
        match rest with
        | [] => [[]]
        | c :: t =>
          match splitGo sep f t with
          | [] => [[c]]
          | h :: tl => (c :: h) :: tl := rfl

theorem splitGo_succ_pos (sep : JStr) (hsep : sep ≠ []) (f : Nat) (rest : JStr)
    (hp : sep.isPrefixOf rest = true) :
    splitGo sep (f + 1) rest = [] :: splitGo sep f (rest.drop sep.length) := by
  rw [splitGo_succ, if_pos ⟨hsep, hp⟩]

theorem splitGo_succ_nil (sep : JStr) (hsep : sep ≠ []) (f : Nat) :
    splitGo sep (f + 1) [] = [[]] := by
  cases sep with
  | nil => exact absurd rfl hsep
  | cons x xs => rfl

theorem splitGo_succ_cons (sep : JStr) (f : Nat) (c : Nat) (t : JStr)
    (hp : sep.isPrefixOf (c :: t) = false) (h : JStr) (tl : List JStr)
    (hsp : splitGo sep f t = h :: tl) :
    splitGo sep (f + 1) (c :: t) = (c :: h) :: tl := by
  rw [splitGo_succ, if_neg (fun hand => Bool.false_ne_true (hp ▸ hand.2))]
  simp only [hsp]

theorem splitGo_ne_nil (sep : JStr) (f : Nat) (s : JStr) : splitGo sep f s ≠ [] := by
  cases f with
  | zero => simp [splitGo]
  | succ f =>
    rw [splitGo_succ]
    split
    · simp
    · split
      · simp
      · split <;> simp

theorem splitGo_fuel (sep : JStr) (hsep : sep ≠ []) :
    ∀ (f1 : Nat) (s : JStr) (f2 : Nat), s.length < f1 → s.length < f2 →
      splitGo sep f1 s = splitGo sep f2 s := by
  intro f1
  induction f1 with
  | zero => intro s f2 h1 _; exact absurd h1 (by omega)
  | succ f1 ih =>
    intro s f2 h1 h2
    cases f2 with
    | zero => exact absurd h2 (by omega)
    | succ f2 =>
      by_cases hpre : sep.isPrefixOf s = true
      · rw [splitGo_succ_pos sep hsep f1 s hpre, splitGo_succ_pos sep hsep f2 s hpre]
        have hlen : sep.length ≤ s.length :=
          ( List.isPrefixOf_iff_prefix.mp hpre).length_le
        have h0 : 0 < sep.length := List.length_pos.mpr hsep
        rw [ih (s.drop sep.length) f2
          (by rw [List.length_drop]; omega) (by rw [List.length_drop]; omega)]
      · have hpf : sep.isPrefixOf s = false := Bool.eq_false_iff.mpr hpre
        cases s with
        | nil => rw [splitGo_succ_nil sep hsep f1, splitGo_succ_nil sep hsep f2]
        | cons c t =>
          have ht1 : t.length < f1 := by simp at h1; omega
          have ht2 : t.length < f2 := by simp at h2; omega
          cases hsp : splitGo sep f1 t with
          | nil => exact absurd hsp (splitGo_ne_nil sep f1 t)
          | cons h tl =>
            have hsp2 : splitGo sep f2 t = h :: tl := (ih t f2 ht1 ht2).symm.trans hsp
            rw [splitGo_succ_cons sep f1 c t hpf h tl hsp,
              splitGo_succ_cons sep f2 c t hpf h tl hsp2]

theorem jsSplitStr_free (s0 : Nat) (sep2 : JStr) :
    ∀ (a : JStr), (∀ c ∈ a, c ≠ s0) → jsSplitStr (s0 :: sep2) a = [a] := by
  intro a
  induction a with
  | nil =>
    intro _
    show splitGo (s0 :: sep2) (0 + 1) [] = [[]]
    rw [splitGo_succ_nil (s0 :: sep2) (List.cons_ne_nil _ _) 0]
  | cons c t ih =>
    intro h
    have hc : c ≠ s0 := h c (List.mem_cons_self c t)
    have hpf := isPrefixOf_cons_neq s0 c sep2 t hc
    have ht : splitGo (s0 :: sep2) (t.length + 1) t = [t] :=
      ih (fun d hd => h d (List.mem_cons_of_mem _ hd))
    show splitGo (s0 :: sep2) ((c :: t).length + 1) (c :: t) = [c :: t]
    rw [List.length_cons]
    exact splitGo_succ_cons (s0 :: sep2) (t.length + 1) c t hpf t [] ht

theorem jsSplitStr_append (s0 : Nat) (sep2 : JStr) :
    ∀ (a b : JStr), (∀ c ∈ a, c ≠ s0) →
      jsSplitStr (s0 :: sep2) (a ++ (s0 :: sep2) ++ b) =
        a :: jsSplitStr (s0 :: sep2) b := by
  intro a
  induction a with
  | nil =>
    intro b _
    show splitGo (s0 :: sep2) (((s0 :: sep2) ++ b).length + 1) ((s0 :: sep2) ++ b) =
      [] :: jsSplitStr (s0 :: sep2) b
    have hfuel : ((s0 :: sep2) ++ b).length + 1 = (sep2.length + b.length + 1) + 1 := by
      simp [List.length_append]
    rw [hfuel]
    rw [splitGo_succ_pos (s0 :: sep2) (List.cons_ne_nil _ _) _ _
      ( List.isPrefixOf_iff_prefix.mpr ( List.prefix_append _ _))]
    rw [List.drop_left]
    have hb1 : b.length < sep2.length + b.length + 1 := by omega
    have hb2 : b.length < b.length + 1 := by omega
    rw [splitGo_fuel (s0 :: sep2) (List.cons_ne_nil _ _)
      (sep2.length + b.length + 1) b (b.length + 1) hb1 hb2]
    rfl
  | cons c a ih =>
    intro b h
    have hc : c ≠ s0 := h c (List.mem_cons_self c a)
    have ht := ih b (fun d hd => h d (List.mem_cons_of_mem _ hd))
    simp only [jsSplitStr] at ht
    show jsSplitStr (s0 :: sep2) ((c :: a) ++ (s0 :: sep2) ++ b) = _
    simp only [List.cons_append]
    show splitGo (s0 :: sep2) ((c :: (a ++ s0 :: sep2 ++ b)).length + 1) _ = _
    rw [List.length_cons]
    have hpf := isPrefixOf_cons_neq s0 c sep2 (a ++ s0 :: sep2 ++ b) hc
    exact splitGo_succ_cons (s0 :: sep2) _ c _ hpf a (jsSplitStr (s0 :: sep2) b) ht

theorem jsJoin_cons (sep h : JStr) (tl : List JStr) (htl : tl ≠ []) :
    jsJoin sep (h :: tl) = h ++ sep ++ jsJoin sep tl := by
  cases tl with
  | nil => exact absurd rfl htl
  | cons x xs => rfl

theorem jsJoin_cons_head (sep : JStr) (c : Nat) (h : JStr) (tl : List JStr) :
    jsJoin sep ((c :: h) :: tl) = c :: jsJoin sep (h :: tl) := by
  cases tl with
  | nil => rfl
  | cons x xs => rfl

theorem jsJoin_splitGo (sep : JStr) (hsep : sep ≠ []) :
    ∀ (f : Nat) (s : JStr), s.length < f → jsJoin sep (splitGo sep f s) = s := by
  intro f
  induction f with
  | zero => intro s h; exact absurd h (by omega)
  | succ f ih =>
    intro s hlen
    by_cases hpre : sep.isPrefixOf s = true
    · rw [splitGo_succ_pos sep hsep f s hpre]
      obtain ⟨t, rfl⟩ := List.isPrefixOf_iff_prefix.mp hpre
      rw [List.drop_left]
      have h0 : 0 < sep.length := List.length_pos.mpr hsep
      have ht : t.length < f := by simp [List.length_append] at hlen; omega
      rw [jsJoin_cons sep [] _ (splitGo_ne_nil sep f t), ih t ht]
      simp
    · have hpf : sep.isPrefixOf s = false := Bool.eq_false_iff.mpr hpre
      cases s with
      | nil => rw [splitGo_succ_nil sep hsep f]; rfl
      | cons c t =>
        have ht : t.length < f := by simp at hlen; omega
        have hj := ih t ht
        cases hsp : splitGo sep f t with
        | nil => exact absurd hsp (splitGo_ne_nil sep f t)
        | cons h tl =>
          rw [hsp] at hj
          rw [splitGo_succ_cons sep f c t hpf h tl hsp, jsJoin_cons_head, hj]

theorem jsJoin_jsSplitStr (sep : JStr) (hsep : sep ≠ []) (s : JStr) :
    jsJoin sep (jsSplitStr sep s) = s :=
  jsJoin_splitGo sep hsep (s.length + 1) s (by omega)

theorem jsSplitStr_ne_nil (sep s : JStr) : jsSplitStr sep s ≠ [] :=
  splitGo_ne_nil sep (s.length + 1) s

/-! ## Parser output invariants -/

theorem lowerChar_cases (c : Nat) :
    (65 ≤ c ∧ c ≤ 90 ∧ lowerChar c = c + 32) ∨
    (¬(65 ≤ c ∧ c ≤ 90) ∧ lowerChar c = c) := by
  unfold lowerChar
  by_cases h : 65 ≤ c ∧ c ≤ 90
  · exact Or.inl ⟨h.1, h.2, if_pos h⟩
  · exact Or.inr ⟨h, if_neg h⟩

theorem parseChars_some_inv (l : JStr) (obj : URLObj)
    (h : parseChars l = some obj) :
    obj.scheme ≠ [] ∧ (∀ c ∈ obj.scheme, 97 ≤ c ∧ c ≤ 122) ∧
    obj.host ≠ [] ∧ (∀ c ∈ obj.host, c ≠ 47 ∧ c ≠ 63 ∧ c ≠ 58 ∧ lowerChar c = c) ∧
    (∀ c ∈ obj.port, isDigitChar c = true) ∧
    (∃ t, obj.path = 47 :: t) := by
  simp only [parseChars] at h
  split at h
  · exact Option.noConfusion h
  next hs0 =>
    split at h
    next c1 c2 c3 rest2 heq =>
      split at h
      · split at h
        · exact Option.noConfusion h
        next hauth =>
          split at h
          · exact Option.noConfusion h
          next hhost =>
            split at h
            next hdig =>
              injection h with h
              subst h
              dsimp only
              refine ⟨?_, ?_, ?_, ?_, ?_, ?_⟩
              · simpa [jsToLower] using hs0
              · intro c hc
                simp only [jsToLower, List.mem_map] at hc
                obtain ⟨c', hc', rfl⟩ := hc
                have hsc := List.mem_takeWhile_imp hc'
                simp [isSchemeChar] at hsc
                rcases lowerChar_cases c' with ⟨h1, h2, he⟩ | ⟨h1, he⟩ <;>
                  rw [he] <;> omega
              · simpa [jsToLower] using hhost
              · intro c hc
                simp only [jsToLower, List.mem_map] at hc
                obtain ⟨c', hc', rfl⟩ := hc
                have hnc := List.mem_takeWhile_imp hc'
                simp [isNotColon] at hnc
                have hmem2 : c' ∈ List.takeWhile isAuthChar rest2 :=
                  ( List.takeWhile_prefix _).subset hc'
                have hac := List.mem_takeWhile_imp hmem2
                simp [isAuthChar] at hac
                refine ⟨?_, ?_, ?_, lowerChar_idem c'⟩ <;>
                  rcases lowerChar_cases c' with ⟨h1, h2, he⟩ | ⟨h1, he⟩ <;>
                    rw [he] <;> omega
              · intro c hc
                split at hc
                · simp at hc
                · exact List.all_eq_true.mp hdig c hc
              · split
                · exact ⟨_, rfl⟩
                next hpe =>
                  cases hpr : List.dropWhile isAuthChar rest2 with
                  | nil => rw [hpr] at hpe; simp at hpe
                  | cons d r =>
                    have hd := dropWhile_head_false _ d r hpr
                    simp [isAuthChar] at hd
                    by_cases hq : isNotQuery d = true
                    · rw [List.takeWhile_cons, if_pos hq]
                      have hd47 : d = 47 := by
                        simp [isNotQuery] at hq
                        by_cases h47 : d = 47
                        · exact h47
                        · exact absurd (hd h47) hq
                      exact ⟨_, by rw [hd47]⟩
                    · rw [hpr] at hpe
                      rw [List.takeWhile_cons,
                        if_neg (fun hh => hq hh)] at hpe
                      exact absurd rfl hpe
            · exact Option.noConfusion h
      · exact Option.noConfusion h
    · exact Option.noConfusion h

/-! ## Re-parsing a canonical serialization preserves the host -/

theorem parseChars_canonical (scheme host portStr t : JStr)
    (hs0 : scheme ≠ []) (hs : ∀ c ∈ scheme, 97 ≤ c ∧ c ≤ 122)
    (hh0 : host ≠ []) (hh : ∀ c ∈ host, c ≠ 47 ∧ c ≠ 63 ∧ c ≠ 58)
    (hp : portStr = [] ∨ ∃ p, portStr = 58 :: p ∧ (∀ c ∈ p, isDigitChar c = true))
    (ht : t = [] ∨ ∃ t2, t = 47 :: t2) :
    ∃ obj, parseChars (scheme ++ 58 :: 47 :: 47 :: (host ++ portStr ++ t)) = some obj ∧
      obj.host = jsToLower host := by
  have hsch : ∀ c ∈ scheme, isSchemeChar c = true := by
    intro c hc
    have h1 := hs c hc
    simp only [isSchemeChar, decide_eq_true_eq]
    omega
  have htw : (scheme ++ 58 :: 47 :: 47 :: (host ++ portStr ++ t)).takeWhile
      isSchemeChar = scheme := by
    rw [takeWhile_append_all _ _ hsch, takeWhile_stop _ _ (by decide)]
    simp
  have hdw : (scheme ++ 58 :: 47 :: 47 :: (host ++ portStr ++ t)).dropWhile
      isSchemeChar = 58 :: 47 :: 47 :: (host ++ portStr ++ t) := by
    rw [dropWhile_append_all _ _ hsch, dropWhile_stop _ _ (by decide)]
  have hauthchars : ∀ c ∈ host ++ portStr, isAuthChar c = true := by
    intro c hc
    simp only [isAuthChar, decide_eq_true_eq]
    rcases List.mem_append.mp hc with hm | hm
    · have h1 := hh c hm
      exact ⟨h1.1, h1.2.1⟩
    · rcases hp with hp | ⟨p, rfl, hdig⟩
      · rw [hp] at hm; simp at hm
      · rcases List.mem_cons.mp hm with rfl | hm2
        · omega
        · have h1 := hdig c hm2
          simp only [isDigitChar, decide_eq_true_eq] at h1
          omega
  have httake : t.takeWhile isAuthChar = [] := by
    rcases ht with rfl | ⟨t2, rfl⟩
    · rfl
    · exact takeWhile_stop _ _ (by decide)
  have htdrop : t.dropWhile isAuthChar = t := by
    rcases ht with rfl | ⟨t2, rfl⟩
    · rfl
    · exact dropWhile_stop _ _ (by decide)
  have hauth : (host ++ portStr ++ t).takeWhile isAuthChar = host ++ portStr := by
    rw [takeWhile_append_all _ _ hauthchars, httake, List.append_nil]
  have hpathRest : (host ++ portStr ++ t).dropWhile isAuthChar = t := by
    rw [dropWhile_append_all _ _ hauthchars, htdrop]
  have hhostchars : ∀ c ∈ host, isNotColon c = true := by
    intro c hc
    simp only [isNotColon, decide_eq_true_eq]
    exact (hh c hc).2.2
  have hporttake : portStr.takeWhile isNotColon = [] := by
    rcases hp with rfl | ⟨p, rfl, _⟩
    · rfl
    · exact takeWhile_stop _ _ (by decide)
  have hportdrop : portStr.dropWhile isNotColon = portStr := by
    rcases hp with rfl | ⟨p, rfl, _⟩
    · rfl
    · exact dropWhile_stop _ _ (by decide)
  have hhost0 : (host ++ portStr).takeWhile isNotColon = host := by
    rw [takeWhile_append_all _ _ hhostchars, hporttake, List.append_nil]
  have hportPart : (host ++ portStr).dropWhile isNotColon = portStr := by
    rw [dropWhile_append_all _ _ hhostchars, hportdrop]
  have hdigall : portStr.tail.all isDigitChar = true := by
    rcases hp with rfl | ⟨p, rfl, hdig⟩
    · rfl
    · exact List.all_eq_true.mpr hdig
  simp only [parseChars]
  rw [htw, hdw, if_neg hs0]
  simp only []
  rw [if_pos (by simp), hauth, hpathRest,
    if_neg (fun hx => hh0 (List.append_eq_nil.mp hx).1), hhost0, if_neg hh0,
    hportPart, if_pos hdigall]
  exact ⟨_, rfl, rfl⟩

/-! ## Shape of the stripped serialization -/

theorem stripTrailingSlash_append_cons (a : JStr) (b : Nat) (T : JStr) :
    stripTrailingSlash (a ++ b :: T) = a ++ stripTrailingSlash (b :: T) := by
  unfold stripTrailingSlash
  rw [List.getLast?_append]
  have hor : ((b :: T).getLast?).or a.getLast? = (b :: T).getLast? := by
    cases hgl : (b :: T).getLast? with
    | none => simp at hgl
    | some x => rfl
  rw [hor]
  by_cases hc : (b :: T).getLast? = some 47
  · rw [if_pos hc, if_pos hc, List.dropLast_append_cons]
  · rw [if_neg hc, if_neg hc]

theorem stripSlash_head (t2 : JStr) :
    stripTrailingSlash (47 :: t2) = [] ∨
    ∃ z, stripTrailingSlash (47 :: t2) = 47 :: z := by
  unfold stripTrailingSlash
  split
  · cases t2 with
    | nil => exact Or.inl rfl
    | cons d r => exact Or.inr ⟨(d :: r).dropLast, rfl⟩
  · exact Or.inr ⟨t2, rfl⟩

theorem strip_href_shape (obj : URLObj) (hpath : ∃ t, obj.path = 47 :: t) :
    ∃ u, stripTrailingSlash (hrefOf obj) =
        obj.scheme ++ 58 :: 47 :: 47 ::
          (obj.host ++ (if obj.port = [] then [] else 58 :: obj.port) ++ u) ∧
      (u = [] ∨ ∃ u2, u = 47 :: u2) := by
  obtain ⟨t, hp⟩ := hpath
  have hre : hrefOf obj =
      (obj.scheme ++ str "://" ++ obj.host ++
        (if obj.port = [] then [] else 58 :: obj.port)) ++
        (47 :: (t ++ (if obj.query = [] then [] else 63 :: obj.query))) := by
    unfold hrefOf
    rw [hp]
    simp [List.append_assoc]
  refine ⟨stripTrailingSlash
    (47 :: (t ++ (if obj.query = [] then [] else 63 :: obj.query))), ?_, stripSlash_head _⟩
  rw [hre, stripTrailingSlash_append_cons]
  have hsep : str "://" = [58, 47, 47] := by decide
  rw [hsep]
  simp [List.append_assoc]

theorem jsToLower_fixed : ∀ (s : JStr), (∀ c ∈ s, lowerChar c = c) → jsToLower s = s
  | [], _ => rfl
  | c :: t, h => by
    show lowerChar c :: jsToLower t = c :: t
    rw [h c (List.mem_cons_self c t),
      jsToLower_fixed t (fun d hd => h d (List.mem_cons_of_mem _ hd))]

/-! ## Normalization of a parseable URL is exactly the stripped serialization -/

theorem normalizeURL_parsed (url : JStr) (obj : URLObj)
    (h : parseURL url = some obj) :
    normalizeURL url = stripTrailingSlash (hrefOf obj) := by
  obtain ⟨hs0, hs, hh0, hh, hport, hpath⟩ := parseChars_some_inv url obj h
  obtain ⟨u, hNshape, hNtail⟩ := strip_href_shape obj hpath
  have hsep : str "://" = [58, 47, 47] := by decide
  have hscheme58 : ∀ c ∈ obj.scheme, c ≠ 58 := fun c hc => by
    have h1 := hs c hc; omega
  have hAfree : ∀ c ∈ obj.host ++ (if obj.port = [] then [] else 58 :: obj.port),
      c ≠ 47 := by
    intro c hc
    rcases List.mem_append.mp hc with hm | hm
    · exact (hh c hm).1
    · split at hm
      · simp at hm
      · rcases List.mem_cons.mp hm with rfl | hm2
        · omega
        · have h1 := hport c hm2
          simp [isDigitChar] at h1
          omega
  have hAfix : ∀ c ∈ obj.host ++ (if obj.port = [] then [] else 58 :: obj.port),
      lowerChar c = c := by
    intro c hc
    rcases List.mem_append.mp hc with hm | hm
    · exact (hh c hm).2.2.2
    · split at hm
      · simp at hm
      · rcases List.mem_cons.mp hm with rfl | hm2
        · rfl
        · have h1 := hport c hm2
          simp [isDigitChar] at h1
          unfold lowerChar
          rw [if_neg (by omega)]
  set pI := (if obj.port = [] then [] else 58 :: obj.port) with hpIdef
  have hN2 : stripTrailingSlash (hrefOf obj) =
      obj.scheme ++ [58, 47, 47] ++ (obj.host ++ pI ++ u) := by
    rw [hNshape]
    simp [List.append_assoc]
  have hsplit1 : jsSplitStr (str "://") (stripTrailingSlash (hrefOf obj)) =
      obj.scheme :: jsSplitStr (str "://") (obj.host ++ pI ++ u) := by
    rw [hsep, hN2]
    exact jsSplitStr_append 58 [47, 47] obj.scheme _ hscheme58
  simp only [normalizeURL, h]
  rw [hsplit1]
  cases hK : jsSplitStr (str "://") (obj.host ++ pI ++ u) with
  | nil => exact absurd hK (jsSplitStr_ne_nil _ _)
  | cons k1 ks =>
    cases ks with
    | cons k2 ks2 => rfl
    | nil =>
      have hBk : obj.host ++ pI ++ u = k1 := by
        have hj := jsJoin_jsSplitStr (str "://") (by decide) (obj.host ++ pI ++ u)
        rw [hK] at hj
        exact hj.symm
      simp only []
      rw [← hBk]
      rcases hNtail with rfl | ⟨u2, rfl⟩
      · rw [List.append_nil]
        rw [jsSplitStr_free 47 [] (obj.host ++ pI) hAfree]
        simp only []
        rw [jsToLower_fixed _ hAfix, if_neg (by simp), hNshape]
        simp [hsep, List.append_assoc]
      · have hsp2 : jsSplitStr [47] (obj.host ++ pI ++ (47 :: u2)) =
            (obj.host ++ pI) :: jsSplitStr [47] u2 := by
          have h2 := jsSplitStr_append 47 [] (obj.host ++ pI) u2 hAfree
          rw [List.append_assoc] at h2
          exact h2
        rw [hsp2]
        simp only []
        rw [jsToLower_fixed _ hAfix, if_pos (jsSplitStr_ne_nil [47] u2),
          jsJoin_jsSplitStr [47] (by decide) u2, hNshape]
        simp [hsep, List.append_assoc]

/-! ## The quick allow-list check sees the original host -/

theorem quickSafetyCheck_of_parsed (url : JStr) (obj : URLObj)
    (h : parseURL url = some obj) :
    quickSafetyCheck (normalizeURL url) = isKnownSafeHost obj.host := by
  obtain ⟨hs0, hs, hh0, hh, hport, hpath⟩ := parseChars_some_inv url obj h
  obtain ⟨u, hNshape, hNtail⟩ := strip_href_shape obj hpath
  have hpOr : (if obj.port = [] then [] else 58 :: obj.port) = [] ∨
      ∃ p, (if obj.port = [] then [] else 58 :: obj.port) = 58 :: p ∧
        (∀ c ∈ p, isDigitChar c = true) := by
    by_cases hpe : obj.port = []
    · rw [if_pos hpe]; exact Or.inl rfl
    · rw [if_neg hpe]; exact Or.inr ⟨obj.port, rfl, hport⟩
  obtain ⟨obj2, hobj2, hhost2⟩ := parseChars_canonical obj.scheme obj.host
    (if obj.port = [] then [] else 58 :: obj.port) u hs0 hs hh0
    (fun c hc => ⟨(hh c hc).1, (hh c hc).2.1, (hh c hc).2.2.1⟩) hpOr hNtail
  rw [normalizeURL_parsed url obj h, hNshape]
  unfold quickSafetyCheck parseURL
  rw [hobj2]
  simp only []
  rw [hhost2, jsToLower_fixed obj.host (fun c hc => (hh c hc).2.2.2),
    jsToLower_fixed obj.host (fun c hc => (hh c hc).2.2.2)]


/-! ## Claim C9 -/

/-- **C9** — For every URL that the platform parser accepts and whose hostname
is in the built-in allow-list, exactly or as a subdomain (suffix `.d` for a
listed registrable domain `d`), `analyze` returns the quick-check safe result:
verdict `safe`, confidence 0 and an empty indicator list, skipping the full
heuristic analysis, for every sensitivity level. -/
theorem c9_allowlist_quick_safe (lvl : SensLevel) (url : JStr) (obj : URLObj)
    (now : Int) (e : ℚ)
    (hp : parseURL url = some obj)
    (hsafe : isKnownSafeHost obj.host = true) :
    (analyzeURL (freshAnalyzer lvl) url now e).1 =
      createSafeResult (normalizeURL url) (str "Passed quick safety checks") now ∧
    (analyzeURL (freshAnalyzer lvl) url now e).1.verdict = .safe ∧
    (analyzeURL (freshAnalyzer lvl) url now e).1.confidence = 0 ∧
    (analyzeURL (freshAnalyzer lvl) url now e).1.indicators = [] := by
  have hq : quickSafetyCheck (normalizeURL url) = true := by
    rw [quickSafetyCheck_of_parsed url obj hp]
    exact hsafe
  have h1 := analyzeURL_miss_quick (freshAnalyzer lvl) url now e rfl rfl hq
  refine ⟨h1, ?_, ?_, ?_⟩ <;> rw [h1] <;> rfl

/-- Witness for C9: `https://WWW.Google.com/a?q=1` parses with host
`www.google.com`, which is allow-listed, at sensitivity level `high`. -/
theorem c9_allowlist_quick_safe_witness :
    (analyzeURL (freshAnalyzer .high) (str "https://WWW.Google.com/a?q=1") 7 2).1 =
      createSafeResult (normalizeURL (str "https://WWW.Google.com/a?q=1"))
        (str "Passed quick safety checks") 7 ∧
    (analyzeURL (freshAnalyzer .high)
      (str "https://WWW.Google.com/a?q=1") 7 2).1.verdict = .safe ∧
    (analyzeURL (freshAnalyzer .high)
      (str "https://WWW.Google.com/a?q=1") 7 2).1.confidence = 0 ∧
    (analyzeURL (freshAnalyzer .high)
      (str "https://WWW.Google.com/a?q=1") 7 2).1.indicators = [] :=
  c9_allowlist_quick_safe .high (str "https://WWW.Google.com/a?q=1")
    ⟨str "https", str "www.google.com", [], str "/a", str "q=1"⟩ 7 2
    (by decide) (by decide)
